import Mathlib

/-!
Shallow embedding of the obsidian-maps plugin (map view over geo-tagged
records) and verification of the frozen claims about it.

Conventions of the embedding:
* JavaScript numbers are modelled as rationals (`ℚ`).  The model has no
  `NaN` / `Infinity`: a string whose `parseFloat` would yield `NaN` parses
  to `none`, which leads to the same observable `null` results in the code
  paths under study.
* JavaScript strings are Lean `String`s; the string operations the source
  uses (`trim`, `split(',')`, regex matching) are implemented explicitly
  over `List Char` with JavaScript semantics.
* Fallible external calls (DOM parsing, network fetch) are oracles passed
  in as explicit inputs.
-/

/-- A JavaScript runtime value, as stored in the view configuration and
passed to `setEphemeralState`. -/
inductive JSVal where
  | undef : JSVal
  | nullv : JSVal
  | num (q : ℚ) : JSVal
  | str (s : String) : JSVal
  | boolv (b : Bool) : JSVal
  | obj (fields : List (String × JSVal)) : JSVal
  | arr (items : List JSVal) : JSVal

mutual

/-- Structural equality of JavaScript values (used to model equality of
their JSON serializations). -/
def JSVal.beq : JSVal → JSVal → Bool
  | .undef, .undef => true
  | .nullv, .nullv => true
  | .num a, .num b => a == b
  | .str a, .str b => a == b
  | .boolv a, .boolv b => a == b
  | .obj a, .obj b => JSVal.beqFields a b
  | .arr a, .arr b => JSVal.beqItems a b
  | _, _ => false

/-- Structural equality of object field lists. -/
def JSVal.beqFields : List (String × JSVal) → List (String × JSVal) → Bool
  | [], [] => true
  | (k1, v1) :: r1, (k2, v2) :: r2 => k1 == k2 && JSVal.beq v1 v2 && JSVal.beqFields r1 r2
  | _, _ => false

/-- Structural equality of array item lists. -/
def JSVal.beqItems : List JSVal → List JSVal → Bool
  | [], [] => true
  | a :: r1, b :: r2 => JSVal.beq a b && JSVal.beqItems r1 r2
  | _, _ => false

end

/-- JavaScript truthiness of a runtime value (objects and arrays are always
truthy; the model contains no `NaN`). -/
def JSVal.truthy : JSVal → Bool
  | .undef => false
  | .nullv => false
  | .num q => decide (q ≠ 0)
  | .str s => decide (s ≠ "")
  | .boolv b => b
  | .obj _ => true
  | .arr _ => true

/-- Property lookup on an object value (first binding wins), `none` when the
value is not an object or lacks the key.  Models `Object.hasOwn` + access. -/
def JSVal.getField : JSVal → String → Option JSVal
  | .obj fields, k => (fields.find? (fun p => p.1 = k)).map (·.2)
  | _, _ => none

/-- `hasOwnProperty(o, k)` from `map/utils.ts`: `o` is a non-null object
owning key `k`. -/
def jsHasOwnProperty (o : JSVal) (k : String) : Bool :=
  (o.getField k).isSome

/-- An Obsidian `Value` (property values and formula results), as consumed
by the plugin. -/
inductive Value where
  | nullV : Value
  | numberV (q : ℚ) : Value
  | stringV (s : String) : Value
  | boolV (b : Bool) : Value
  | listV (items : List Value) : Value

/-- Modelled external Obsidian API `Value.isTruthy`: JavaScript-style
truthiness, with a list truthy iff non-empty. -/
def Value.isTruthy : Value → Bool
  | .nullV => false
  | .numberV q => decide (q ≠ 0)
  | .stringV s => decide (s ≠ "")
  | .boolV b => b
  | .listV items => !items.isEmpty

/-- Modelled external Obsidian API `Value.toString`. The plugin only relies
on the rendering of string values (which render as themselves); other cases
follow the obvious JavaScript renderings and are not exercised by theorems. -/
def Value.toStr : Value → String
  | .nullV => "null"
  | .numberV q => toString q
  | .stringV s => s
  | .boolV b => toString b
  | .listV _ => ""

/-! ## JavaScript string primitives -/

/-- JavaScript `String.prototype.trim` over a character list. -/
def jsTrimList (cs : List Char) : List Char :=
  ((cs.dropWhile Char.isWhitespace).reverse.dropWhile Char.isWhitespace).reverse

/-- JavaScript `String.prototype.trim`. -/
def jsTrim (s : String) : String := ⟨jsTrimList s.data⟩

/-- JavaScript `String.prototype.split(',')`: `[] ↦ [""]`, separators at the
ends produce empty parts. -/
def splitComma : List Char → List (List Char)
  | [] => [[]]
  | c :: rest =>
    if c = ',' then [] :: splitComma rest
    else
      match splitComma rest with
      | [] => [[c]]
      | h :: t => (c :: h) :: t

/-! ## `parseFloat` (decimal notation; the model has no NaN/Infinity) -/

/-- Numeric value of a digit character. -/
def digitVal (c : Char) : ℕ := c.toNat - 48

/-- Value of a big-endian list of digit characters. -/
def natOfDigitChars (cs : List Char) : ℕ :=
  cs.foldl (fun a c => 10 * a + digitVal c) 0

/-- Optional leading sign; returns (isNegative, rest). -/
def parseSign : List Char → Bool × List Char
  | [] => (false, [])
  | c :: r => if c = '-' then (true, r) else if c = '+' then (false, r) else (false, c :: r)

/-- Body of an exponent after the `e`/`E` marker; `parseFloat` ignores an
exponent marker not followed by digits. -/
def parseExpBody (cs : List Char) : ℤ :=
  let sr := parseSign cs
  let ds := sr.2.takeWhile Char.isDigit
  if ds.isEmpty then 0
  else if sr.1 then -(natOfDigitChars ds : ℤ) else (natOfDigitChars ds : ℤ)

/-- Exponent part of a JavaScript float literal (0 when absent/invalid). -/
def parseExp : List Char → ℤ
  | 'e' :: r => parseExpBody r
  | 'E' :: r => parseExpBody r
  | _ => 0

/-- Fractional part after the integer digits: digits following a `'.'`,
paired with the remaining characters. -/
def fracPart : List Char → List Char × List Char
  | '.' :: r => (r.takeWhile Char.isDigit, r.dropWhile Char.isDigit)
  | cs => ([], cs)

/-- Digit/fraction/exponent pipeline of `parseFloat` after the optional
sign has been consumed. -/
def parseFloatAfterSign (neg : Bool) (cs : List Char) : Option ℚ :=
  let ip := cs.takeWhile Char.isDigit
  let fr := fracPart (cs.dropWhile Char.isDigit)
  if ip.isEmpty && fr.1.isEmpty then none
  else
    some ((if neg then -1 else 1) *
      ((natOfDigitChars ip : ℚ) + (natOfDigitChars fr.1 : ℚ) / (10 : ℚ) ^ fr.1.length) *
      (10 : ℚ) ^ parseExp fr.2)

/-- JavaScript `parseFloat` on a character list: skip leading whitespace,
optional sign, digits with optional fraction and exponent; longest valid
numeric prefix wins, trailing junk is ignored; `none` models `NaN`. -/
def parseFloatCore (cs0 : List Char) : Option ℚ :=
  let sr := parseSign (cs0.dropWhile Char.isWhitespace)
  parseFloatAfterSign sr.1 sr.2

/-- JavaScript `parseFloat` on a string. -/
def parseFloatStr (s : String) : Option ℚ := parseFloatCore s.data

/-! ## `map/utils.ts` -/

/-- `verifyLatLng` from `map/utils.ts` (the `isNaN` guards are vacuous in
the NaN-free model). -/
def verifyLatLng (lat lng : ℚ) : Bool :=
  decide (-90 ≤ lat) && decide (lat ≤ 90) && decide (-180 ≤ lng) && decide (lng ≤ 180)

/-- `parseCoordinate` from `map/utils.ts` applied to an Obsidian `Value`
(the `NumberValue` branch round-trips the finite number through its string
rendering, i.e. returns it unchanged; the `StringValue` branch is
`parseFloat`). -/
def parseCoordinate : Value → Option ℚ
  | .numberV q => some q
  | .stringV s => parseFloatStr s
  | _ => none

/-- Final test of `coordinateFromValue`: the JavaScript condition
`if (lat && lng && verifyLatLng(lat, lng))` — a side that is `null`
(parse failure) or exactly `0` (falsy) rejects the pair. -/
def finishCoordinate : Option ℚ → Option ℚ → Option (ℚ × ℚ)
  | some lat, some lng =>
    if lat ≠ 0 ∧ lng ≠ 0 ∧ verifyLatLng lat lng then some (lat, lng) else none
  | _, _ => none

/-- `coordinateFromValue` from `map/utils.ts`. -/
def coordinateFromValue : Value → Option (ℚ × ℚ)
  | .listV items =>
    if 2 ≤ items.length then
      finishCoordinate (parseCoordinate (items.getD 0 .nullV))
        (parseCoordinate (items.getD 1 .nullV))
    else none
  | .stringV s =>
    let parts := splitComma (jsTrimList s.data)
    if 2 ≤ parts.length then
      finishCoordinate (parseFloatCore (jsTrimList (parts.getD 0 [])))
        (parseFloatCore (jsTrimList (parts.getD 1 [])))
    else none
  | _ => none

/-! ## Finite decimal literals and their rendering

A coordinate written in a string is necessarily a finite decimal literal;
`Decimal` is the digit-level representation of such a literal and `render`
its canonical text. -/

/-- A signed finite decimal literal, digit by digit. -/
structure Decimal where
  neg : Bool
  intDigits : List ℕ
  fracDigits : List ℕ

/-- Well-formed literal: a non-empty integer part, all digits below 10. -/
def Decimal.wf (d : Decimal) : Prop :=
  d.intDigits ≠ [] ∧ (∀ x ∈ d.intDigits, x < 10) ∧ ∀ x ∈ d.fracDigits, x < 10

/-- The character of a digit. -/
def digitChar (n : ℕ) : Char := Char.ofNat (48 + n)

/-- Value of a big-endian digit list. -/
def natOfDigs (ds : List ℕ) : ℕ := ds.foldl (fun a x => 10 * a + x) 0

/-- Character rendering of a literal. -/
def Decimal.renderChars (d : Decimal) : List Char :=
  (if d.neg then ['-'] else []) ++ d.intDigits.map digitChar ++
    (if d.fracDigits.isEmpty then [] else '.' :: d.fracDigits.map digitChar)

/-- String rendering of a literal. -/
def Decimal.render (d : Decimal) : String := ⟨d.renderChars⟩

/-- Rational value of a literal. -/
def Decimal.toRat (d : Decimal) : ℚ :=
  (if d.neg then -1 else 1) *
    ((natOfDigs d.intDigits : ℚ) + (natOfDigs d.fracDigits : ℚ) / (10 : ℚ) ^ d.fracDigits.length)

/-! ### Facts about digit characters and list scanning -/

theorem digitChar_isDigit {x : ℕ} (h : x < 10) : (digitChar x).isDigit = true := by
  interval_cases x <;> decide

theorem digitChar_not_ws {x : ℕ} (h : x < 10) : (digitChar x).isWhitespace = false := by
  interval_cases x <;> decide

theorem digitChar_ne_neg {x : ℕ} (h : x < 10) : digitChar x ≠ '-' := by
  interval_cases x <;> decide

theorem digitChar_ne_plus {x : ℕ} (h : x < 10) : digitChar x ≠ '+' := by
  interval_cases x <;> decide

theorem digitChar_ne_dot {x : ℕ} (h : x < 10) : digitChar x ≠ '.' := by
  interval_cases x <;> decide

theorem digitChar_ne_comma {x : ℕ} (h : x < 10) : digitChar x ≠ ',' := by
  interval_cases x <;> decide

theorem digitVal_digitChar {x : ℕ} (h : x < 10) : digitVal (digitChar x) = x := by
  interval_cases x <;> decide

theorem takeWhile_append_all {p : Char → Bool} {l r : List Char} (h : ∀ c ∈ l, p c = true) :
    (l ++ r).takeWhile p = l ++ r.takeWhile p := by
  induction l with
  | nil => simp
  | cons c cs ih =>
    have h1 : p c = true := h c (by simp)
    have h2 : ∀ c ∈ cs, p c = true := fun c hc => h c (by simp [hc])
    simp [List.takeWhile_cons, h1, ih h2]

theorem dropWhile_append_all {p : Char → Bool} {l r : List Char} (h : ∀ c ∈ l, p c = true) :
    (l ++ r).dropWhile p = r.dropWhile p := by
  induction l with
  | nil => simp
  | cons c cs ih =>
    have h1 : p c = true := h c (by simp)
    have h2 : ∀ c ∈ cs, p c = true := fun c hc => h c (by simp [hc])
    simp [List.dropWhile_cons, h1, ih h2]

theorem takeWhile_all {p : Char → Bool} {l : List Char} (h : ∀ c ∈ l, p c = true) :
    l.takeWhile p = l := by
  have := takeWhile_append_all (r := []) h
  simpa using this

theorem dropWhile_all {p : Char → Bool} {l : List Char} (h : ∀ c ∈ l, p c = true) :
    l.dropWhile p = [] := by
  have := dropWhile_append_all (r := []) h
  simpa using this

theorem dropWhile_eq_self_of_all {p : Char → Bool} {l : List Char} (h : ∀ c ∈ l, p c = false) :
    l.dropWhile p = l := by
  cases l with
  | nil => rfl
  | cons c cs => simp [List.dropWhile_cons, h c (by simp)]

theorem natOfDigitChars_map {ds : List ℕ} (h : ∀ x ∈ ds, x < 10) :
    natOfDigitChars (ds.map digitChar) = natOfDigs ds := by
  unfold natOfDigitChars natOfDigs
  rw [List.foldl_map]
  exact List.foldl_ext _ _ 0 (fun a b hb => by rw [digitVal_digitChar (h b hb)])

theorem jsTrimList_eq_self {l : List Char} (h : ∀ c ∈ l, c.isWhitespace = false) :
    jsTrimList l = l := by
  unfold jsTrimList
  rw [dropWhile_eq_self_of_all h, dropWhile_eq_self_of_all (by
    intro c hc
    exact h c (List.mem_reverse.mp hc)), List.reverse_reverse]

theorem splitComma_no_comma {l : List Char} (h : ',' ∉ l) : splitComma l = [l] := by
  induction l with
  | nil => rfl
  | cons c cs ih =>
    have hc : c ≠ ',' := fun hcc => h (hcc ▸ List.mem_cons_self _ _)
    have hcs : ',' ∉ cs := fun hm => h (List.mem_cons_of_mem _ hm)
    simp [splitComma, hc, ih hcs]

theorem splitComma_append {l₁ l₂ : List Char} (h : ',' ∉ l₁) :
    splitComma (l₁ ++ ',' :: l₂) = l₁ :: splitComma l₂ := by
  induction l₁ with
  | nil => simp [splitComma]
  | cons c cs ih =>
    have hc : c ≠ ',' := fun hcc => h (hcc ▸ List.mem_cons_self _ _)
    have hcs : ',' ∉ cs := fun hm => h (List.mem_cons_of_mem _ hm)
    simp [splitComma, hc, ih hcs]

/-! ### `parseFloat` recovers a rendered decimal literal -/

theorem parseSign_neg (l : List Char) : parseSign ('-' :: l) = (true, l) := by
  simp [parseSign]

theorem parseSign_other {c : Char} (h1 : c ≠ '-') (h2 : c ≠ '+') (l : List Char) :
    parseSign (c :: l) = (false, c :: l) := by
  simp [parseSign, h1, h2]

/-- The digit/fraction pipeline of `parseFloat` computes the value of the
rendered digits of a literal. -/
theorem parseFloatAfterSign_digits (neg : Bool) {ds fs : List ℕ} (hne : ds ≠ [])
    (hd : ∀ x ∈ ds, x < 10) (hf : ∀ x ∈ fs, x < 10) :
    parseFloatAfterSign neg
        (ds.map digitChar ++ (if fs.isEmpty then [] else '.' :: fs.map digitChar)) =
      some ((if neg then -1 else 1) *
        ((natOfDigs ds : ℚ) + (natOfDigs fs : ℚ) / (10 : ℚ) ^ fs.length)) := by
  have hdig : ∀ c ∈ ds.map digitChar, c.isDigit = true := by
    intro c hc
    obtain ⟨y, hy, rfl⟩ := List.mem_map.mp hc
    exact digitChar_isDigit (hd y hy)
  have hfdig : ∀ c ∈ fs.map digitChar, c.isDigit = true := by
    intro c hc
    obtain ⟨y, hy, rfl⟩ := List.mem_map.mp hc
    exact digitChar_isDigit (hf y hy)
  have hipne : (ds.map digitChar).isEmpty = false := by
    cases ds with
    | nil => exact absurd rfl hne
    | cons a l => simp
  cases fs with
  | nil =>
    have hip : ((ds.map digitChar ++ ([] : List Char)).takeWhile Char.isDigit) = ds.map digitChar := by
      rw [List.append_nil, takeWhile_all hdig]
    have hdp : ((ds.map digitChar ++ ([] : List Char)).dropWhile Char.isDigit) = [] := by
      rw [List.append_nil, dropWhile_all hdig]
    simp only [List.isEmpty_nil, if_true]
    unfold parseFloatAfterSign
    rw [hip, hdp]
    rw [show fracPart ([] : List Char) = ([], []) from rfl]
    simp only [hipne, List.isEmpty_nil, Bool.false_and, Bool.false_eq_true, if_false]
    rw [natOfDigitChars_map hd]
    rw [show natOfDigitChars [] = 0 from rfl, show parseExp [] = 0 from rfl,
      show natOfDigs [] = 0 from rfl]
    norm_num
  | cons f fsr =>
    have hip : ((ds.map digitChar ++ '.' :: (f :: fsr).map digitChar).takeWhile Char.isDigit)
        = ds.map digitChar := by
      rw [takeWhile_append_all hdig]
      simp [List.takeWhile_cons]
    have hdp : ((ds.map digitChar ++ '.' :: (f :: fsr).map digitChar).dropWhile Char.isDigit)
        = '.' :: (f :: fsr).map digitChar := by
      rw [dropWhile_append_all hdig]
      simp [List.dropWhile_cons]
    simp only [List.isEmpty_cons, Bool.false_eq_true, if_false]
    unfold parseFloatAfterSign
    rw [hip, hdp]
    have hfr0 : fracPart ('.' :: (f :: fsr).map digitChar) =
        (((f :: fsr).map digitChar).takeWhile Char.isDigit,
         ((f :: fsr).map digitChar).dropWhile Char.isDigit) := rfl
    have hfr : fracPart ('.' :: (f :: fsr).map digitChar) = ((f :: fsr).map digitChar, []) := by
      rw [hfr0, takeWhile_all hfdig, dropWhile_all hfdig]
    rw [hfr]
    simp only [hipne, Bool.false_and, Bool.false_eq_true, if_false]
    rw [natOfDigitChars_map hd, natOfDigitChars_map hf]
    rw [show parseExp [] = 0 from rfl]
    norm_num

/-- `parseFloat` recovers the value of a well-formed rendered decimal
literal. -/
theorem parseFloatCore_render {d : Decimal} (h : d.wf) :
    parseFloatCore d.renderChars = some d.toRat := by
  obtain ⟨hne, hd, hf⟩ := h
  obtain ⟨x, xs, hds⟩ : ∃ x xs, d.intDigits = x :: xs := by
    cases hc : d.intDigits with
    | nil => exact absurd hc hne
    | cons a l => exact ⟨a, l, rfl⟩
  have hx : x < 10 := hd x (by rw [hds]; simp)
  have hshape : d.intDigits.map digitChar ++
      (if d.fracDigits.isEmpty then [] else '.' :: d.fracDigits.map digitChar) =
      digitChar x :: (xs.map digitChar ++
        (if d.fracDigits.isEmpty then [] else '.' :: d.fracDigits.map digitChar)) := by
    rw [hds]; simp
  cases hneg : d.neg with
  | false =>
    have hlist : d.renderChars = d.intDigits.map digitChar ++
        (if d.fracDigits.isEmpty then [] else '.' :: d.fracDigits.map digitChar) := by
      unfold Decimal.renderChars
      rw [hneg]
      simp
    have hdrop : (d.intDigits.map digitChar ++
        (if d.fracDigits.isEmpty then [] else '.' :: d.fracDigits.map digitChar)).dropWhile
          Char.isWhitespace =
        d.intDigits.map digitChar ++
          (if d.fracDigits.isEmpty then [] else '.' :: d.fracDigits.map digitChar) := by
      rw [hshape, List.dropWhile_cons, digitChar_not_ws hx]
      simp
    have hsign : parseSign (d.intDigits.map digitChar ++
        (if d.fracDigits.isEmpty then [] else '.' :: d.fracDigits.map digitChar)) =
        (false, d.intDigits.map digitChar ++
          (if d.fracDigits.isEmpty then [] else '.' :: d.fracDigits.map digitChar)) := by
      rw [hshape, parseSign_other (digitChar_ne_neg hx) (digitChar_ne_plus hx), ← hshape]
    unfold parseFloatCore
    rw [hlist, hdrop, hsign]
    rw [parseFloatAfterSign_digits false hne hd hf]
    unfold Decimal.toRat
    rw [hneg]
  | true =>
    have hlist : d.renderChars = '-' :: (d.intDigits.map digitChar ++
        (if d.fracDigits.isEmpty then [] else '.' :: d.fracDigits.map digitChar)) := by
      unfold Decimal.renderChars
      rw [hneg]
      simp
    have hdrop : ('-' :: (d.intDigits.map digitChar ++
        (if d.fracDigits.isEmpty then [] else '.' :: d.fracDigits.map digitChar))).dropWhile
          Char.isWhitespace =
        '-' :: (d.intDigits.map digitChar ++
          (if d.fracDigits.isEmpty then [] else '.' :: d.fracDigits.map digitChar)) := by
      rw [List.dropWhile_cons, show '-'.isWhitespace = false by decide]
      simp
    unfold parseFloatCore
    rw [hlist, hdrop, parseSign_neg]
    rw [parseFloatAfterSign_digits true hne hd hf]
    unfold Decimal.toRat
    rw [hneg]

theorem renderChars_props {d : Decimal} (h : d.wf) :
    ∀ c ∈ d.renderChars, c.isWhitespace = false ∧ c ≠ ',' := by
  obtain ⟨hne, hd, hf⟩ := h
  intro c hc
  unfold Decimal.renderChars at hc
  simp only [List.append_assoc, List.mem_append] at hc
  rcases hc with hc | hc | hc
  · cases hn : d.neg with
    | false => rw [hn] at hc; simp at hc
    | true =>
      rw [hn] at hc
      simp at hc
      subst hc
      exact ⟨by decide, by decide⟩
  · obtain ⟨y, hy, rfl⟩ := List.mem_map.mp hc
    exact ⟨digitChar_not_ws (hd y hy), digitChar_ne_comma (hd y hy)⟩
  · cases hfe : d.fracDigits.isEmpty with
    | true => rw [hfe] at hc; simp at hc
    | false =>
      rw [hfe] at hc
      simp only [Bool.false_eq_true, if_false, List.mem_cons] at hc
      rcases hc with rfl | hc
      · exact ⟨by decide, by decide⟩
      · obtain ⟨y, hy, rfl⟩ := List.mem_map.mp hc
        exact ⟨digitChar_not_ws (hf y hy), digitChar_ne_comma (hf y hy)⟩

theorem finishCoordinate_some (a b : ℚ) :
    finishCoordinate (some a) (some b) =
      if a ≠ 0 ∧ b ≠ 0 ∧ verifyLatLng a b then some (a, b) else none := rfl

theorem finishCoordinate_none_left (x : Option ℚ) : finishCoordinate none x = none := by
  cases x <;> rfl

theorem finishCoordinate_none_right (x : Option ℚ) : finishCoordinate x none = none := by
  cases x <;> rfl

/-- Reduction of `coordinateFromValue` on a two-or-more element list. -/
theorem coordinateFromValue_list2 (v₁ v₂ : Value) (rest : List Value) :
    coordinateFromValue (.listV (v₁ :: v₂ :: rest)) =
      finishCoordinate (parseCoordinate v₁) (parseCoordinate v₂) := by
  have hlen : 2 ≤ (v₁ :: v₂ :: rest).length := by simp
  simp only [coordinateFromValue, if_pos hlen, List.getD_cons_zero, List.getD_cons_succ]

/-- Reduction of `coordinateFromValue` on a rendered `"lat,lng"` string. -/
theorem coordinateFromValue_render_pair {d₁ d₂ : Decimal} (h₁ : d₁.wf) (h₂ : d₂.wf) :
    coordinateFromValue (.stringV ⟨d₁.renderChars ++ ',' :: d₂.renderChars⟩) =
      finishCoordinate (some d₁.toRat) (some d₂.toRat) := by
  have hp₁ := renderChars_props h₁
  have hp₂ := renderChars_props h₂
  have hnw : ∀ c ∈ d₁.renderChars ++ ',' :: d₂.renderChars, c.isWhitespace = false := by
    intro c hc
    rcases List.mem_append.mp hc with hc | hc
    · exact (hp₁ c hc).1
    · rcases List.mem_cons.mp hc with rfl | hc
      · decide
      · exact (hp₂ c hc).1
  have hnc₁ : ',' ∉ d₁.renderChars := fun hm => (hp₁ ',' hm).2 rfl
  have hnc₂ : ',' ∉ d₂.renderChars := fun hm => (hp₂ ',' hm).2 rfl
  have hdata : (String.mk (d₁.renderChars ++ ',' :: d₂.renderChars)).data
      = d₁.renderChars ++ ',' :: d₂.renderChars := rfl
  have hr₁ : parseFloatCore d₁.renderChars = some d₁.toRat := parseFloatCore_render h₁
  have hr₂ : parseFloatCore d₂.renderChars = some d₂.toRat := parseFloatCore_render h₂
  simp only [coordinateFromValue, hdata]
  rw [jsTrimList_eq_self hnw, splitComma_append hnc₁, splitComma_no_comma hnc₂]
  have hlen : 2 ≤ ([d₁.renderChars, d₂.renderChars] : List (List Char)).length := by simp
  rw [if_pos hlen]
  simp only [List.getD_cons_zero, List.getD_cons_succ]
  rw [jsTrimList_eq_self (fun c hc => (hp₁ c hc).1),
    jsTrimList_eq_self (fun c hc => (hp₂ c hc).1), hr₁, hr₂]

/-- C1: for every in-range coordinate pair with neither side exactly 0,
`coordinateFromValue` maps both the two-element list encoding and the
comma-separated string encoding to that pair; it returns `null` when a side
is 0, when a side is out of range, when a side fails to parse, and for
strings with fewer than two comma-separated parts. -/
theorem C1_coordinate_resolution :
    (∀ a b : ℚ, a ≠ 0 → b ≠ 0 → -90 ≤ a → a ≤ 90 → -180 ≤ b → b ≤ 180 →
      coordinateFromValue (.listV [.numberV a, .numberV b]) = some (a, b)) ∧
    (∀ d₁ d₂ : Decimal, d₁.wf → d₂.wf → d₁.toRat ≠ 0 → d₂.toRat ≠ 0 →
      -90 ≤ d₁.toRat → d₁.toRat ≤ 90 → -180 ≤ d₂.toRat → d₂.toRat ≤ 180 →
      coordinateFromValue (.stringV ⟨d₁.renderChars ++ ',' :: d₂.renderChars⟩)
        = some (d₁.toRat, d₂.toRat)) ∧
    (∀ a b : ℚ, a = 0 ∨ b = 0 →
      coordinateFromValue (.listV [.numberV a, .numberV b]) = none) ∧
    (∀ d₁ d₂ : Decimal, d₁.wf → d₂.wf → d₁.toRat = 0 ∨ d₂.toRat = 0 →
      coordinateFromValue (.stringV ⟨d₁.renderChars ++ ',' :: d₂.renderChars⟩) = none) ∧
    (∀ a b : ℚ, verifyLatLng a b = false →
      coordinateFromValue (.listV [.numberV a, .numberV b]) = none) ∧
    (∀ v₁ v₂ : Value, parseCoordinate v₁ = none ∨ parseCoordinate v₂ = none →
      coordinateFromValue (.listV [v₁, v₂]) = none) ∧
    (∀ s : String, (splitComma (jsTrimList s.data)).length < 2 →
      coordinateFromValue (.stringV s) = none) := by
  refine ⟨?_, ?_, ?_, ?_, ?_, ?_, ?_⟩
  · intro a b ha hb h1 h2 h3 h4
    rw [coordinateFromValue_list2]
    simp only [parseCoordinate, finishCoordinate_some]
    rw [if_pos ⟨ha, hb,
      (by simp only [verifyLatLng, Bool.and_eq_true, decide_eq_true_eq];
          exact ⟨⟨⟨h1, h2⟩, h3⟩, h4⟩ : verifyLatLng a b = true)⟩]
  · intro d₁ d₂ h₁ h₂ ha hb h1 h2 h3 h4
    rw [coordinateFromValue_render_pair h₁ h₂, finishCoordinate_some]
    rw [if_pos ⟨ha, hb,
      (by simp only [verifyLatLng, Bool.and_eq_true, decide_eq_true_eq];
          exact ⟨⟨⟨h1, h2⟩, h3⟩, h4⟩ : verifyLatLng d₁.toRat d₂.toRat = true)⟩]
  · intro a b hab
    rw [coordinateFromValue_list2]
    simp only [parseCoordinate, finishCoordinate_some]
    rw [if_neg (by tauto)]
  · intro d₁ d₂ h₁ h₂ hab
    rw [coordinateFromValue_render_pair h₁ h₂, finishCoordinate_some]
    rw [if_neg (by tauto)]
  · intro a b hv
    rw [coordinateFromValue_list2]
    simp only [parseCoordinate, finishCoordinate_some]
    rw [if_neg (by simp [hv])]
  · intro v₁ v₂ hv
    rw [coordinateFromValue_list2]
    rcases hv with hv | hv
    · rw [hv, finishCoordinate_none_left]
    · rw [hv, finishCoordinate_none_right]
  · intro s hlen
    simp only [coordinateFromValue]
    rw [if_neg (by omega)]

/-- Witness for C1 at concrete inputs: the list encoding of `(34, -118)` and
the string encoding `"34.5,-118"` both resolve, and `(0, 5)` is rejected. -/
theorem C1_coordinate_resolution_witness :
    coordinateFromValue (.listV [.numberV 34, .numberV (-118)]) = some (34, -118) ∧
    coordinateFromValue (.stringV ⟨(Decimal.mk false [3, 4] [5]).renderChars ++
      ',' :: (Decimal.mk true [1, 1, 8] []).renderChars⟩)
      = some ((Decimal.mk false [3, 4] [5]).toRat, (Decimal.mk true [1, 1, 8] []).toRat) ∧
    coordinateFromValue (.listV [.numberV 0, .numberV 5]) = none := by
  refine ⟨?_, ?_, ?_⟩
  · exact C1_coordinate_resolution.1 34 (-118) (by norm_num) (by norm_num) (by norm_num)
      (by norm_num) (by norm_num) (by norm_num)
  · exact C1_coordinate_resolution.2.1 (Decimal.mk false [3, 4] [5]) (Decimal.mk true [1, 1, 8] [])
      (by unfold Decimal.wf; decide) (by unfold Decimal.wf; decide)
      (by norm_num [Decimal.toRat, natOfDigs, List.foldl])
      (by norm_num [Decimal.toRat, natOfDigs, List.foldl])
      (by norm_num [Decimal.toRat, natOfDigs, List.foldl])
      (by norm_num [Decimal.toRat, natOfDigs, List.foldl])
      (by norm_num [Decimal.toRat, natOfDigs, List.foldl])
      (by norm_num [Decimal.toRat, natOfDigs, List.foldl])
  · exact C1_coordinate_resolution.2.2.1 0 5 (Or.inl rfl)

/-! ## `map-view.ts`: configuration loading -/

/-- `DEFAULT_MAP_HEIGHT` from `map/constants.ts`. -/
def DEFAULT_MAP_HEIGHT : ℚ := 400

/-- `DEFAULT_MAP_CENTER` from `map/constants.ts` (as `(lat, lng)`). -/
def DEFAULT_MAP_CENTER : ℚ × ℚ := (0, 0)

/-- `DEFAULT_MAP_ZOOM` from `map/constants.ts`. -/
def DEFAULT_MAP_ZOOM : ℚ := 4

/-- A background tile set from plugin settings (`settings.ts`). -/
structure TileSet where
  id : String
  name : String
  lightTiles : String
  darkTiles : String

/-- The `MapConfig` record built by `MapView.loadConfig`. -/
structure MapConfig where
  coordinatesProp : Option String
  markerIconProp : Option String
  markerColorProp : Option String
  mapHeight : ℚ
  defaultZoom : ℚ
  center : ℚ × ℚ
  maxZoom : ℚ
  minZoom : ℚ
  mapTiles : List String
  mapTilesDark : List String
  currentTileSetId : Option String
deriving DecidableEq

/-- Modelled external API `config.getAsPropertyId`: the configured property
id string when one is stored, otherwise `none`. -/
def getAsPropertyId (cfg : String → JSVal) (key : String) : Option String :=
  match cfg key with
  | .str s => some s
  | _ => none

/-- `MapView.getNumericConfig`: a non-numeric or absent value yields the
default unclamped; a numeric value is clamped by `Math.max(min, ·)` then
`Math.min(max, ·)`. -/
def getNumericConfig (cfg : String → JSVal) (key : String) (defaultValue : ℚ)
    (lo hi : Option ℚ) : ℚ :=
  match cfg key with
  | .num q =>
    let r := match lo with | some m => max m q | none => q
    match hi with | some M => min M r | none => r
  | _ => defaultValue

/-- `MapView.getArrayConfig`. -/
def getArrayConfig (cfg : String → JSVal) (key : String) : List String :=
  let value := cfg key
  if !value.truthy then []
  else
    match value with
    | .arr items => items.filterMap (fun it =>
        match it with
        | .str s => if jsTrim s ≠ "" then some s else none
        | _ => none)
    | .str s => if jsTrim s ≠ "" then [jsTrim s] else []
    | _ => []

/-- `MapView.getCenterFromConfig`.  `formula = none` models the evaluated
center formula throwing; a `nullV` result falls back to the raw string
config, as does a throw. -/
def getCenterFromConfig (cfg : String → JSVal) (formula : Option Value) : ℚ × ℚ :=
  match formula with
  | none =>
    match cfg "center" with
    | .str s => (coordinateFromValue (.stringV s)).getD DEFAULT_MAP_CENTER
    | _ => DEFAULT_MAP_CENTER
  | some .nullV =>
    match cfg "center" with
    | .str s => (coordinateFromValue (.stringV s)).getD DEFAULT_MAP_CENTER
    | _ => DEFAULT_MAP_CENTER
  | some v => (coordinateFromValue v).getD DEFAULT_MAP_CENTER

/-- Tile selection of `MapView.loadConfig`: view-specific tiles win;
otherwise a plugin tile set (the one matching `currentTileSetId`, falling
back to the first); empty `lightTiles`/`darkTiles` strings are falsy. -/
def selectTiles (viewTiles viewTilesDark : List String) (tileSets : List TileSet)
    (currentTileSetId : Option String) : List String × List String × Option String :=
  if viewTiles.length > 0 then (viewTiles, viewTilesDark, none)
  else
    match tileSets with
    | [] => ([], [], none)
    | t0 :: _ =>
      let tileSet : Option TileSet :=
        match currentTileSetId with
        | some tid => if tid ≠ "" then tileSets.find? (fun ts => ts.id = tid) else none
        | none => none
      let selected := tileSet.getD t0
      (if selected.lightTiles ≠ "" then [selected.lightTiles] else [],
       if selected.darkTiles ≠ "" then [selected.darkTiles]
       else if selected.lightTiles ≠ "" then [selected.lightTiles] else [],
       some selected.id)

/-- `MapView.loadConfig`.  The raw view configuration is the lookup `cfg`;
`formula` is the evaluated center formula (`none` = evaluation threw). -/
def loadConfig (cfg : String → JSVal) (formula : Option Value) (isEmbedded : Bool)
    (tileSets : List TileSet) (currentTileSetId : Option String) : MapConfig :=
  let minZoom := getNumericConfig cfg "minZoom" 0 (some 0) (some 24)
  let maxZoom := getNumericConfig cfg "maxZoom" 18 (some 0) (some 24)
  let defaultZoom := getNumericConfig cfg "defaultZoom" DEFAULT_MAP_ZOOM (some minZoom) (some maxZoom)
  let center := getCenterFromConfig cfg formula
  let mapHeight :=
    if isEmbedded then getNumericConfig cfg "mapHeight" DEFAULT_MAP_HEIGHT (some 100) (some 2000)
    else DEFAULT_MAP_HEIGHT
  let tsel := selectTiles (getArrayConfig cfg "mapTiles") (getArrayConfig cfg "mapTilesDark")
    tileSets currentTileSetId
  { coordinatesProp := getAsPropertyId cfg "coordinates"
    markerIconProp := getAsPropertyId cfg "markerIcon"
    markerColorProp := getAsPropertyId cfg "markerColor"
    mapHeight := mapHeight
    defaultZoom := defaultZoom
    center := center
    maxZoom := maxZoom
    minZoom := minZoom
    mapTiles := tsel.1
    mapTilesDark := tsel.2.1
    currentTileSetId := tsel.2.2 }

theorem loadConfig_minZoom (cfg : String → JSVal) (formula : Option Value) (emb : Bool)
    (ts : List TileSet) (cur : Option String) :
    (loadConfig cfg formula emb ts cur).minZoom =
      getNumericConfig cfg "minZoom" 0 (some 0) (some 24) := rfl

theorem loadConfig_maxZoom (cfg : String → JSVal) (formula : Option Value) (emb : Bool)
    (ts : List TileSet) (cur : Option String) :
    (loadConfig cfg formula emb ts cur).maxZoom =
      getNumericConfig cfg "maxZoom" 18 (some 0) (some 24) := rfl

theorem loadConfig_defaultZoom (cfg : String → JSVal) (formula : Option Value) (emb : Bool)
    (ts : List TileSet) (cur : Option String) :
    (loadConfig cfg formula emb ts cur).defaultZoom =
      getNumericConfig cfg "defaultZoom" DEFAULT_MAP_ZOOM
        (some (getNumericConfig cfg "minZoom" 0 (some 0) (some 24)))
        (some (getNumericConfig cfg "maxZoom" 18 (some 0) (some 24))) := rfl

theorem getNumericConfig_num {cfg : String → JSVal} {k : String} {q : ℚ} (h : cfg k = .num q)
    (d lo hi : ℚ) :
    getNumericConfig cfg k d (some lo) (some hi) = min hi (max lo q) := by
  unfold getNumericConfig
  rw [h]

theorem getNumericConfig_default {cfg : String → JSVal} {k : String}
    (h : ∀ q : ℚ, cfg k ≠ .num q) (d : ℚ) (lo hi : Option ℚ) :
    getNumericConfig cfg k d lo hi = d := by
  unfold getNumericConfig
  rcases hc : cfg k with _ | _ | q | s | b | f | i
  case num => exact absurd hc (h q)
  all_goals rfl

/-- A raw configuration with inverted zoom bounds: `minZoom = 24`,
`maxZoom = 0`, `defaultZoom = 4`. -/
def invertedZoomCfg : String → JSVal := fun k =>
  if k = "minZoom" then .num 24
  else if k = "maxZoom" then .num 0
  else if k = "defaultZoom" then .num 4
  else (.undef : JSVal)

/-- C2 counterexample: with inverted raw `minZoom`/`maxZoom`, the loaded
configuration violates `minZoom ≤ defaultZoom ≤ maxZoom` (here
`minZoom = 24` but `defaultZoom = 0`). -/
theorem C2_zoom_invariant_counterexample :
    ¬ ((loadConfig invertedZoomCfg none false [] none).minZoom ≤
        (loadConfig invertedZoomCfg none false [] none).defaultZoom ∧
       (loadConfig invertedZoomCfg none false [] none).defaultZoom ≤
        (loadConfig invertedZoomCfg none false [] none).maxZoom) := by
  have e1 : invertedZoomCfg "minZoom" = .num 24 := rfl
  have e2 : invertedZoomCfg "maxZoom" = .num 0 := rfl
  have e3 : invertedZoomCfg "defaultZoom" = .num 4 := rfl
  have h1 : (loadConfig invertedZoomCfg none false [] none).minZoom = 24 := by
    rw [loadConfig_minZoom, getNumericConfig_num e1]
    norm_num
  have h2 : (loadConfig invertedZoomCfg none false [] none).defaultZoom = 0 := by
    rw [loadConfig_defaultZoom, getNumericConfig_num e3, getNumericConfig_num e1,
      getNumericConfig_num e2]
    norm_num
  rw [h1, h2]
  norm_num

/-- C2 (amended): every loaded configuration has `minZoom`, `maxZoom` and
`defaultZoom` within `[0, 24]`; and whenever the clamped bounds are not
inverted and the raw `defaultZoom` is numeric, `minZoom ≤ defaultZoom ≤
maxZoom` holds.  (With a non-numeric raw `defaultZoom` the unclamped
default 4 is used, and with inverted raw bounds no ordering is enforced —
see the counterexample.) -/
theorem C2_zoom_bounds (cfg : String → JSVal) (formula : Option Value) (emb : Bool)
    (ts : List TileSet) (cur : Option String) :
    (0 ≤ (loadConfig cfg formula emb ts cur).minZoom ∧
      (loadConfig cfg formula emb ts cur).minZoom ≤ 24) ∧
    (0 ≤ (loadConfig cfg formula emb ts cur).maxZoom ∧
      (loadConfig cfg formula emb ts cur).maxZoom ≤ 24) ∧
    (0 ≤ (loadConfig cfg formula emb ts cur).defaultZoom ∧
      (loadConfig cfg formula emb ts cur).defaultZoom ≤ 24) ∧
    ((loadConfig cfg formula emb ts cur).minZoom ≤ (loadConfig cfg formula emb ts cur).maxZoom →
      (∃ q : ℚ, cfg "defaultZoom" = .num q) →
      (loadConfig cfg formula emb ts cur).minZoom ≤ (loadConfig cfg formula emb ts cur).defaultZoom ∧
      (loadConfig cfg formula emb ts cur).defaultZoom ≤ (loadConfig cfg formula emb ts cur).maxZoom) := by
  rw [loadConfig_minZoom, loadConfig_maxZoom, loadConfig_defaultZoom]
  have hbounds : ∀ (k : String) (d : ℚ), 0 ≤ d → d ≤ 24 →
      0 ≤ getNumericConfig cfg k d (some 0) (some 24) ∧
      getNumericConfig cfg k d (some 0) (some 24) ≤ 24 := by
    intro k d hd0 hd24
    by_cases hq : ∃ q : ℚ, cfg k = .num q
    · obtain ⟨q, hq⟩ := hq
      rw [getNumericConfig_num hq]
      exact ⟨le_min (by norm_num) (le_max_left _ _), min_le_left _ _⟩
    · push_neg at hq
      rw [getNumericConfig_default hq]
      exact ⟨hd0, hd24⟩
  have hmn := hbounds "minZoom" 0 (by norm_num) (by norm_num)
  have hmx := hbounds "maxZoom" 18 (by norm_num) (by norm_num)
  refine ⟨hmn, hmx, ?_, ?_⟩
  · by_cases hq : ∃ q : ℚ, cfg "defaultZoom" = .num q
    · obtain ⟨q, hq⟩ := hq
      rw [getNumericConfig_num hq]
      refine ⟨le_min hmx.1 (le_trans hmn.1 (le_max_left _ _)), le_trans (min_le_left _ _) hmx.2⟩
    · push_neg at hq
      rw [getNumericConfig_default hq]
      norm_num [DEFAULT_MAP_ZOOM]
  · intro hle hq
    obtain ⟨q, hq⟩ := hq
    rw [getNumericConfig_num hq]
    exact ⟨le_min hle (le_max_left _ _), min_le_left _ _⟩

/-- Witness for the amended C2 at a concrete configuration
(`minZoom = 1`, `maxZoom = 10`, `defaultZoom = 5`): the full chain holds. -/
theorem C2_zoom_bounds_witness :
    (loadConfig (fun k => if k = "minZoom" then .num 1 else if k = "maxZoom" then .num 10
        else if k = "defaultZoom" then .num 5 else .undef) none false [] none).minZoom ≤
      (loadConfig (fun k => if k = "minZoom" then .num 1 else if k = "maxZoom" then .num 10
        else if k = "defaultZoom" then .num 5 else .undef) none false [] none).defaultZoom ∧
    (loadConfig (fun k => if k = "minZoom" then .num 1 else if k = "maxZoom" then .num 10
        else if k = "defaultZoom" then .num 5 else .undef) none false [] none).defaultZoom ≤
      (loadConfig (fun k => if k = "minZoom" then .num 1 else if k = "maxZoom" then .num 10
        else if k = "defaultZoom" then .num 5 else .undef) none false [] none).maxZoom := by
  refine (C2_zoom_bounds _ none false [] none).2.2.2 ?_ ⟨5, rfl⟩
  rw [loadConfig_minZoom, loadConfig_maxZoom,
    getNumericConfig_num (q := 1) rfl, getNumericConfig_num (q := 10) rfl]
  norm_num

/-! ## `map/markers.ts`: marker images, keys, sources and layers -/

/-- `SVG_MARKER_RENDER_SCALE` from `map/constants.ts`. -/
def SVG_MARKER_RENDER_SCALE : ℚ := 2

/-- `SVG_MARKER_REFERENCE_SIZE` from `map/constants.ts`. -/
def SVG_MARKER_REFERENCE_SIZE : ℚ := 48

/-- Truthiness of a `string | null` value. -/
def strOptTruthy : Option String → Bool
  | some s => s ≠ ""
  | none => false

/-- A record entry as consumed by the plugin: a stable path and a
property-value accessor.  `getValue` returning `none` models both a thrown
lookup and a `null` property value (both are treated identically by every
caller). -/
structure BasesEntry where
  path : String
  getValue : String → Option Value

/-- The property bindings `MarkerManager` reads off the current map
configuration.  (`markerSvgProp` is read by `markers.ts` but never set by
`map-view.ts`'s `loadConfig`, so configurations built by `loadConfig` have
it `none`/undefined.) -/
structure MarkerProps where
  coordinatesProp : Option String
  markerIconProp : Option String
  markerColorProp : Option String
  markerSvgProp : Option String
deriving DecidableEq

/-- `MarkerManager.getCustomIcon`. -/
def getCustomIcon (mp : MarkerProps) (e : BasesEntry) : Option String :=
  if !strOptTruthy mp.markerIconProp then none
  else
    match e.getValue (mp.markerIconProp.getD "") with
    | none => none
    | some v =>
      if !v.isTruthy then none
      else
        let iconString := jsTrim v.toStr
        if iconString = "" ∨ iconString = "null" ∨ iconString = "undefined" then none
        else some iconString

/-- `MarkerManager.getCustomColor`. -/
def getCustomColor (mp : MarkerProps) (e : BasesEntry) : Option String :=
  if !strOptTruthy mp.markerColorProp then none
  else
    match e.getValue (mp.markerColorProp.getD "") with
    | none => none
    | some v => if !v.isTruthy then none else some (jsTrim v.toStr)

/-- `MarkerManager.getCustomSvg` (`value.toString().trim() || null`). -/
def getCustomSvg (mp : MarkerProps) (e : BasesEntry) : Option String :=
  if !strOptTruthy mp.markerSvgProp then none
  else
    match e.getValue (mp.markerSvgProp.getD "") with
    | none => none
    | some v =>
      if !v.isTruthy then none
      else
        let s := jsTrim v.toStr
        if s = "" then none else some s

/-- Wrap an integer to a signed 32-bit value (JavaScript `| 0`). -/
def toInt32 (n : ℤ) : ℤ := ((n + 2 ^ 31) % 2 ^ 32) - 2 ^ 31

/-- One step of `MarkerManager.hashSvg`:
`hash = ((hash << 5) - hash) + charCode; hash |= 0` (the shift wraps to
32 bits by itself; character codes are Unicode code points in this model,
which agrees with UTF-16 code units on the BMP). -/
def hashSvgStep (h : ℤ) (c : Char) : ℤ := toInt32 (toInt32 (h * 32) - h + c.toNat)

/-- The accumulated signed 32-bit hash of `MarkerManager.hashSvg`. -/
def hashSvgInt (s : String) : ℤ := s.data.foldl hashSvgStep 0

/-- A base-36 digit character (lowercase), as in JavaScript
`Number.prototype.toString(36)`. -/
def base36Digit (n : ℕ) : Char := if n < 10 then Char.ofNat (48 + n) else Char.ofNat (87 + n)

/-- Big-endian base-36 digits of a natural number. -/
def natToBase36Aux (n : ℕ) (acc : List Char) : List Char :=
  if h : n = 0 then acc
  else natToBase36Aux (n / 36) (base36Digit (n % 36) :: acc)
termination_by n
decreasing_by exact Nat.div_lt_self (Nat.pos_of_ne_zero h) (by norm_num)

/-- JavaScript `n.toString(36)` for a natural number. -/
def natToBase36 (n : ℕ) : String := if n = 0 then "0" else ⟨natToBase36Aux n []⟩

/-- `MarkerManager.hashSvg`: `Math.abs(hash).toString(36)`. -/
def hashSvg (s : String) : String := natToBase36 (hashSvgInt s).natAbs

/-- The color component of a composite image key:
`color.replace(/[^a-zA-Z0-9]/g, '')`. -/
def sanitizeColorKey (s : String) : String :=
  ⟨s.data.filter (fun c => c.isAlpha || c.isDigit)⟩

/-- `MarkerManager.getMarkerImageKey`. -/
def getMarkerImageKey (icon : Option String) (color : String) (svg : Option String) : String :=
  if strOptTruthy svg then
    let s := svg.getD ""
    "marker-svg-" ++ hashSvg s ++ "-" ++ toString s.length
  else
    "marker-" ++ (if strOptTruthy icon then icon.getD "" else "dot") ++ "-" ++
      sanitizeColorKey color

/-- `MarkerManager.parseNumericSvgValue`: the regex
`^(\d+(?:\.\d+)?)(px)?$` (plain or `px`-suffixed unsigned decimals). -/
def parseNumericSvgValue (v : Option String) : Option ℚ :=
  match v with
  | none => none
  | some s =>
    if s = "" then none
    else
      let ip := s.data.takeWhile Char.isDigit
      let r1 := s.data.dropWhile Char.isDigit
      if ip.isEmpty then none
      else
        match r1 with
        | '.' :: r =>
          let fp := r.takeWhile Char.isDigit
          let r2 := r.dropWhile Char.isDigit
          if fp.isEmpty then none
          else if r2 = [] ∨ r2 = ['p', 'x'] then
            some ((natOfDigitChars ip : ℚ) + (natOfDigitChars fp : ℚ) / (10 : ℚ) ^ fp.length)
          else none
        | r2 =>
          if r2 = [] ∨ r2 = ['p', 'x'] then some (natOfDigitChars ip : ℚ)
          else none

/-- Separator class of the viewBox split regex `/[\s,]+/`. -/
def isWsComma (c : Char) : Bool := c.isWhitespace || c = ','

theorem dropWhile_length_le (p : Char → Bool) (l : List Char) :
    (l.dropWhile p).length ≤ l.length := by
  induction l with
  | nil => simp
  | cons c cs ih =>
    rw [List.dropWhile_cons]
    split
    · exact le_trans ih (by simp)
    · exact le_refl _

mutual

/-- Main state of the run splitter: accumulating the current part. -/
def splitRunsGo (p : Char → Bool) : List Char → List Char → List (List Char)
  | [], acc => [acc.reverse]
  | c :: rest, acc =>
    if p c then acc.reverse :: splitRunsSkip p rest
    else splitRunsGo p rest (c :: acc)

/-- Separator-skipping state of the run splitter. -/
def splitRunsSkip (p : Char → Bool) : List Char → List (List Char)
  | [] => [[]]
  | c :: rest => if p c then splitRunsSkip p rest else splitRunsGo p rest [c]

end

/-- JavaScript `String.prototype.split(regex)` for a character-class
regex: split on maximal runs of separator characters (a leading run yields
a leading empty part, a trailing run a trailing empty part). -/
def splitRuns (p : Char → Bool) (cs : List Char) : List (List Char) := splitRunsGo p cs []

/-- JavaScript `Number(string)` restricted to decimal notation: empty or
all-whitespace is 0; otherwise a fully-consumed signed decimal with an
optional exponent (whose digits are mandatory); anything else is NaN
(`none`).  (Hex/`Infinity` inputs are outside the model.) -/
def jsNumberChars (cs0 : List Char) : Option ℚ :=
  let cs := jsTrimList cs0
  if cs.isEmpty then some 0
  else
    let sr := parseSign cs
    let ip := sr.2.takeWhile Char.isDigit
    let fr := fracPart (sr.2.dropWhile Char.isDigit)
    if ip.isEmpty && fr.1.isEmpty then none
    else
      let mant : ℚ := (natOfDigitChars ip : ℚ) + (natOfDigitChars fr.1 : ℚ) / (10 : ℚ) ^ fr.1.length
      let sign : ℚ := if sr.1 then -1 else 1
      match fr.2 with
      | [] => some (sign * mant)
      | 'e' :: r =>
        let esr := parseSign r
        let ds := esr.2.takeWhile Char.isDigit
        if ds.isEmpty ∨ esr.2.dropWhile Char.isDigit ≠ [] then none
        else some (sign * mant *
          (10 : ℚ) ^ (if esr.1 then -(natOfDigitChars ds : ℤ) else (natOfDigitChars ds : ℤ)))
      | 'E' :: r =>
        let esr := parseSign r
        let ds := esr.2.takeWhile Char.isDigit
        if ds.isEmpty ∨ esr.2.dropWhile Char.isDigit ≠ [] then none
        else some (sign * mant *
          (10 : ℚ) ^ (if esr.1 then -(natOfDigitChars ds : ℤ) else (natOfDigitChars ds : ℤ)))
      | _ => none

/-- `MarkerManager.getSvgDimensions` on the three relevant attributes.
Returns `(width, height, fixedSize)` or `none` (no usable dimensions). -/
def getSvgDimensions (wAttr hAttr vbAttr : Option String) : Option (ℚ × ℚ × Bool) :=
  let width := parseNumericSvgValue wAttr
  let height := parseNumericSvgValue hAttr
  match width, height with
  | some w, some h => some (w, h, true)
  | _, _ =>
    let vbResult : Option (ℚ × ℚ × Bool) :=
      match vbAttr with
      | some vb =>
        if vb ≠ "" then
          let parts := (splitRuns isWsComma vb.data).map (fun t => jsNumberChars t)
          if parts.length = 4 ∧ parts.all Option.isSome then
            let vbW := (parts.getD 2 none).getD 0
            let vbH := (parts.getD 3 none).getD 0
            match width with
            | some w => some (w, w * (vbH / vbW), true)
            | none =>
              match height with
              | some h => some (h * (vbW / vbH), h, true)
              | none => some (vbW, vbH, false)
          else none
        else none
      | none => none
    match vbResult with
    | some r => some r
    | none =>
      match width with
      | some w => some (w, w, false)
      | none =>
        match height with
        | some h => some (h, h, false)
        | none => none

/-- Result of `DOMParser.parseFromString(s, 'image/svg+xml')`, reduced to
what `createSvgMarkerImage` inspects: a parse error, or the root element's
tag plus its `width`/`height`/`viewBox`/`xmlns` attributes. -/
inductive ParsedSvg where
  | parseFail (msg : String)
  | elem (tag : String) (width height viewBox xmlns : Option String)

/-- A produced marker bitmap, by content: a composited icon/color circle
(`createCompositeMarkerImage`), or a rendered custom SVG at its final
pixel dimensions. -/
inductive MarkerImg where
  | composite (icon : Option String) (color : String)
  | svgRendered (w h : ℚ) (fixedSize : Bool)
deriving DecidableEq

/-- `MarkerManager.createInvalidSvgFallbackImage`:
`createCompositeMarkerImage('help-circle', 'var(--bases-map-marker-background)')`. -/
def fallbackMarkerImg : MarkerImg :=
  .composite (some "help-circle") "var(--bases-map-marker-background)"

/-- ASCII lowercasing (`tagName.toLowerCase()`). -/
def lowerString (s : String) : String := ⟨s.data.map Char.toLower⟩

/-- The outcome of `MarkerManager.createSvgMarkerImage`. -/
structure SvgMarkerResult where
  img : MarkerImg
  fixedSize : Bool
  svgError : Option String
deriving DecidableEq

/-- `MarkerManager.createSvgMarkerImage` on the parsed document: parse
failures and non-`svg` roots and unusable sizing degrade to the fallback
glyph plus an error string; otherwise the final render size is the
explicit size (fixed) or the long edge normalized to the 48-unit
reference (scalable), drawn at the 2x oversampling scale. -/
def createSvgMarkerImage (doc : ParsedSvg) : SvgMarkerResult :=
  match doc with
  | .parseFail msg => ⟨fallbackMarkerImg, false, some msg⟩
  | .elem tag w h vb _ =>
    if lowerString tag ≠ "svg" then ⟨fallbackMarkerImg, false, some "Expected <svg> element"⟩
    else
      match getSvgDimensions w h vb with
      | none => ⟨fallbackMarkerImg, false,
          some "Custom SVG marker needs a viewBox and/or explicit width and height for correct rendering."⟩
      | some (width, height, fixedSize) =>
        let dims : ℚ × ℚ :=
          if fixedSize then (width, height)
          else
            let scale := SVG_MARKER_REFERENCE_SIZE / max width height
            (width * scale, height * scale)
        ⟨.svgRendered (dims.1 * SVG_MARKER_RENDER_SCALE) (dims.2 * SVG_MARKER_RENDER_SCALE)
            fixedSize,
          fixedSize, none⟩

/-- Observable side effects issued to the rendering engine / DOM. -/
inductive Eff where
  | addImage (key : String)
  | removeImage (key : String)
  | addSource (id : String)
  | addLayer (id : String)
  | setupInteractions
  | setData (sourceId : String) (count : ℕ)
  | setCenter (lng lat : ℚ)
  | setCenterBounds
  | setZoom (z : ℚ)
  | fitBounds
  | setMinZoom (z : ℚ)
  | setMaxZoom (z : ℚ)
  | setStyle
  | clearMarkerImages
  | setHeightPx (h : ℚ)
  | clearHeight
  | resize
  | createMap (lng lat zoom : ℚ)
deriving DecidableEq

/-- Cached metadata of a loaded marker image: `(fixedSize, svgError?)`. -/
abbrev ImageMeta := Bool × Option String

/-- Lookup in the `loadedMarkerImages` map. -/
def loadedLookup (loaded : List (String × ImageMeta)) (k : String) : Option ImageMeta :=
  (loaded.find? (fun p => p.1 = k)).map (·.2)

/-- The resolved `(icon, color, svgString)` triple of one marker, as
computed at the top of `loadMarkerImages`'s collection loop (color
defaults to the theme background variable). -/
def resolveMarkerStyle (mp : MarkerProps) (e : BasesEntry) :
    Option String × String × Option String :=
  (getCustomIcon mp e,
   (match getCustomColor mp e with
    | some c => if c ≠ "" then c else "var(--bases-map-marker-background)"
    | none => "var(--bases-map-marker-background)"),
   getCustomSvg mp e)

/-- The image key of one marker. -/
def markerImageKey (mp : MarkerProps) (e : BasesEntry) : String :=
  getMarkerImageKey (resolveMarkerStyle mp e).1 (resolveMarkerStyle mp e).2.1
    (resolveMarkerStyle mp e).2.2

/-- A queued image to create: the `markerImagesToLoad` entries. -/
structure QueueItem where
  icon : Option String
  color : String
  svgString : Option String
  imageKey : String

/-- The collection loop of `loadMarkerImages`: skip keys already cached
and keys already queued in this batch. -/
def buildImageQueue (mp : MarkerProps) (loaded : List (String × ImageMeta)) :
    List BasesEntry → List QueueItem → List QueueItem
  | [], acc => acc
  | e :: rest, acc =>
    let r := resolveMarkerStyle mp e
    let key := getMarkerImageKey r.1 r.2.1 r.2.2
    if (loadedLookup loaded key).isSome then buildImageQueue mp loaded rest acc
    else if (acc.map (·.imageKey)).contains key then buildImageQueue mp loaded rest acc
    else buildImageQueue mp loaded rest (acc ++ [⟨r.1, r.2.1, r.2.2, key⟩])

/-- Creation of one marker image: custom SVG rendering when a (truthy)
SVG string is present, otherwise the composite icon/color bitmap. -/
def createMarkerImage (parseSvg : String → ParsedSvg) (it : QueueItem) :
    MarkerImg × Bool × Option String :=
  if strOptTruthy it.svgString then
    let r := createSvgMarkerImage (parseSvg (it.svgString.getD ""))
    (r.img, r.fixedSize, r.svgError)
  else (.composite it.icon it.color, false, none)

/-- The registration loop of `loadMarkerImages`: for each queued key,
remove a stale engine image of the same name, add the new image, and
record its metadata in the cache. -/
def registerImages (parseSvg : String → ParsedSvg) :
    List QueueItem → List (String × ImageMeta) → List String →
      List (String × ImageMeta) × List String × List Eff
  | [], loaded, registry => (loaded, registry, [])
  | it :: rest, loaded, registry =>
    let r := createMarkerImage parseSvg it
    let removeEffs : List Eff :=
      if registry.contains it.imageKey then [.removeImage it.imageKey] else []
    let registry' := (registry.filter (fun k => k ≠ it.imageKey)) ++ [it.imageKey]
    let loaded' := (loaded.filter (fun p => p.1 ≠ it.imageKey)) ++ [(it.imageKey, (r.2.1, r.2.2))]
    let rec' := registerImages parseSvg rest loaded' registry'
    (rec'.1, rec'.2.1, removeEffs ++ [.addImage it.imageKey] ++ rec'.2.2)

/-- `MarkerManager.loadMarkerImages` over the resolved markers: returns
the updated image cache, the engine's image registry, and the emitted
effects. -/
def loadMarkerImages (mp : MarkerProps) (parseSvg : String → ParsedSvg)
    (loaded : List (String × ImageMeta)) (registry : List String)
    (markers : List BasesEntry) :
    List (String × ImageMeta) × List String × List Eff :=
  registerImages parseSvg (buildImageQueue mp loaded markers []) loaded registry

/-- One GeoJSON point feature built by `createGeoJSONFeatures`. -/
structure Feature where
  entryIndex : ℕ
  imageKey : String
  fixedSize : Bool
  svgError : Option String
  lng : ℚ
  lat : ℚ

/-- `MarkerManager.createGeoJSONFeatures` (marker coordinates are
`(lat, lng)`; geometry is emitted as `(lng, lat)`; `svgError` is included
only when truthy). -/
def createGeoJSONFeatures (mp : MarkerProps) (loaded : List (String × ImageMeta))
    (markers : List (BasesEntry × ℚ × ℚ)) : List Feature :=
  markers.enum.map (fun im =>
    let e := im.2.1
    let key := markerImageKey mp e
    let meta := loadedLookup loaded key
    { entryIndex := im.1
      imageKey := key
      fixedSize := (meta.map (·.1)).getD false
      svgError := match meta.bind (·.2) with
        | some s => if s ≠ "" then some s else none
        | none => none
      lng := im.2.2.2
      lat := im.2.2.1 })

/-- The slice of rendering-engine state owned by the marker layer. -/
structure MarkersMapState where
  hasMarkersSource : Bool
  markersData : Option (List Feature)
  layers : List String
  interactionsSetupCount : ℕ
  imageRegistry : List String

/-- The `MarkerManager`'s own mutable state. -/
structure MarkerMgrState where
  markers : List (BasesEntry × ℚ × ℚ)
  bounds : Option (List (ℚ × ℚ))
  loadedMarkerImages : List (String × ImageMeta)

/-- `MarkerManager.updateMarkers`: collect entries with resolvable
coordinates, rebuild bounds, load missing images, rebuild the feature
collection, and either replace the data of the existing `markers` source
or create the source, the single symbol layer, and the interaction
handlers. -/
def updateMarkers (mp? : Option MarkerProps) (parseSvg : String → ParsedSvg)
    (data : Option (List (Option BasesEntry))) (hasMap : Bool)
    (mgr : MarkerMgrState) (mapSt : MarkersMapState) :
    MarkerMgrState × MarkersMapState × List Eff :=
  match data, mp? with
  | some entries, some mp =>
    if !hasMap || !strOptTruthy mp.coordinatesProp then (mgr, mapSt, [])
    else
      let validMarkers : List (BasesEntry × ℚ × ℚ) := entries.filterMap (fun e? =>
        match e? with
        | none => none
        | some e =>
          match e.getValue (mp.coordinatesProp.getD "") with
          | none => none
          | some v =>
            match coordinateFromValue v with
            | some ll => some (e, ll.1, ll.2)
            | none => none)
      let bounds := validMarkers.map (fun m => (m.2.2, m.2.1))
      let li := loadMarkerImages mp parseSvg mgr.loadedMarkerImages mapSt.imageRegistry
        (validMarkers.map (·.1))
      let features := createGeoJSONFeatures mp li.1 validMarkers
      let mgr' : MarkerMgrState :=
        { markers := validMarkers, bounds := some bounds, loadedMarkerImages := li.1 }
      if mapSt.hasMarkersSource then
        (mgr', { mapSt with markersData := some features, imageRegistry := li.2.1 },
         li.2.2 ++ [.setData "markers" features.length])
      else
        (mgr',
         { hasMarkersSource := true
           markersData := some features
           layers := mapSt.layers ++ ["marker-pins"]
           interactionsSetupCount := mapSt.interactionsSetupCount + 1
           imageRegistry := li.2.1 },
         li.2.2 ++ [.addSource "markers", .addLayer "marker-pins", .setupInteractions])
  | _, _ => (mgr, mapSt, [])

theorem lowerString_svg : lowerString "svg" = "svg" := rfl

theorem getSvgDimensions_both (w h : String) (vb : Option String) {wv hv : ℚ}
    (hw : parseNumericSvgValue (some w) = some wv)
    (hh : parseNumericSvgValue (some h) = some hv) :
    getSvgDimensions (some w) (some h) vb = some (wv, hv, true) := by
  unfold getSvgDimensions
  rw [hw, hh]

theorem getSvgDimensions_viewBox_only (vb : String) (hne : vb ≠ "")
    (hlen : ((splitRuns isWsComma vb.data).map (fun t => jsNumberChars t)).length = 4)
    (hall : ((splitRuns isWsComma vb.data).map (fun t => jsNumberChars t)).all
      Option.isSome = true) :
    getSvgDimensions none none (some vb) =
      some ((((splitRuns isWsComma vb.data).map (fun t => jsNumberChars t)).getD 2 none).getD 0,
            (((splitRuns isWsComma vb.data).map (fun t => jsNumberChars t)).getD 3 none).getD 0,
            false) := by
  unfold getSvgDimensions
  simp only [parseNumericSvgValue]
  rw [if_pos hne, if_pos ⟨hlen, hall⟩]

theorem getSvgDimensions_neither : getSvgDimensions none none none = none := rfl

/-- C6: a custom SVG marker with explicit pixel width and height is
`fixedSize = true` (no error); one with only a (well-formed) viewBox is
`fixedSize = false` (no error); one with neither pixel dimensions nor a
viewBox yields the built-in fallback glyph image and a non-null error
string. -/
theorem C6_svg_fixed_size :
    (∀ (w h : String) (vb xmlns : Option String) (wv hv : ℚ),
      parseNumericSvgValue (some w) = some wv → parseNumericSvgValue (some h) = some hv →
      createSvgMarkerImage (.elem "svg" (some w) (some h) vb xmlns) =
        ⟨.svgRendered (wv * SVG_MARKER_RENDER_SCALE) (hv * SVG_MARKER_RENDER_SCALE) true,
          true, none⟩) ∧
    (∀ (vb : String) (xmlns : Option String),
      vb ≠ "" →
      ((splitRuns isWsComma vb.data).map (fun t => jsNumberChars t)).length = 4 →
      ((splitRuns isWsComma vb.data).map (fun t => jsNumberChars t)).all Option.isSome = true →
      (createSvgMarkerImage (.elem "svg" none none (some vb) xmlns)).fixedSize = false ∧
      (createSvgMarkerImage (.elem "svg" none none (some vb) xmlns)).svgError = none) ∧
    (∀ xmlns : Option String,
      (createSvgMarkerImage (.elem "svg" none none none xmlns)).img = fallbackMarkerImg ∧
      (createSvgMarkerImage (.elem "svg" none none none xmlns)).svgError ≠ none) := by
  have htag : ¬ (lowerString "svg" ≠ "svg") := fun hcon => hcon lowerString_svg
  refine ⟨?_, ?_, ?_⟩
  · intro w h vb xmlns wv hv hw hh
    simp only [createSvgMarkerImage]
    rw [if_neg htag, getSvgDimensions_both w h vb hw hh]
    rfl
  · intro vb xmlns hne hlen hall
    have hdim := getSvgDimensions_viewBox_only vb hne hlen hall
    constructor <;> (simp only [createSvgMarkerImage]; rw [if_neg htag, hdim])
  · intro xmlns
    have hred : createSvgMarkerImage (.elem "svg" none none none xmlns) =
        ⟨fallbackMarkerImg, false,
          some "Custom SVG marker needs a viewBox and/or explicit width and height for correct rendering."⟩ := by
      simp only [createSvgMarkerImage]
      rw [if_neg htag, getSvgDimensions_neither]
    rw [hred]
    exact ⟨rfl, by simp⟩

/-- Witness for C6 at concrete markup: `width="32" height="18"` is fixed
size, `viewBox="0 0 24 24"` alone is scalable, and no sizing at all falls
back with an error. -/
theorem C6_svg_fixed_size_witness :
    createSvgMarkerImage (.elem "svg" (some "32") (some "18") none none) =
      ⟨.svgRendered (32 * SVG_MARKER_RENDER_SCALE) (18 * SVG_MARKER_RENDER_SCALE) true,
        true, none⟩ ∧
    (createSvgMarkerImage (.elem "svg" none none (some "0 0 24 24") none)).fixedSize = false ∧
    (createSvgMarkerImage (.elem "svg" none none (some "0 0 24 24") none)).svgError = none ∧
    (createSvgMarkerImage (.elem "svg" none none none none)).img = fallbackMarkerImg ∧
    (createSvgMarkerImage (.elem "svg" none none none none)).svgError ≠ none := by
  have h1 := C6_svg_fixed_size.1 "32" "18" none none 32 18 (by decide) (by decide)
  have h2 := C6_svg_fixed_size.2.1 "0 0 24 24" none (by decide) (by decide) (by decide)
  have h3 := C6_svg_fixed_size.2.2 none
  exact ⟨h1, h2.1, h2.2, h3.1, h3.2⟩

/-! ### C5: image keys and single registration -/

theorem string_data_append (a b : String) : (a ++ b).data = a.data ++ b.data := rfl

/-- The text after the last `-` of a key (the sanitized color component of
a composite key). -/
def keyColorToken (s : String) : String :=
  ⟨(s.data.reverse.takeWhile (fun c => c != '-')).reverse⟩

theorem sanitizeColorKey_no_dash (color : String) :
    ∀ c ∈ (sanitizeColorKey color).data, (c != '-') = true := by
  intro c hc
  unfold sanitizeColorKey at hc
  have hmem := List.mem_filter.mp hc
  rcases Bool.or_eq_true_iff.mp hmem.2 with h | h
  · rw [bne_iff_ne]
    intro hcon
    rw [hcon] at h
    exact absurd h (by decide)
  · rw [bne_iff_ne]
    intro hcon
    rw [hcon] at h
    exact absurd h (by decide)

theorem keyColorToken_key (icon : Option String) (color : String) :
    keyColorToken (getMarkerImageKey icon color none) = sanitizeColorKey color := by
  unfold getMarkerImageKey
  rw [show strOptTruthy none = false from rfl]
  simp only [Bool.false_eq_true, if_false]
  unfold keyColorToken
  rw [show ("marker-" ++ (if strOptTruthy icon then icon.getD "" else "dot") ++ "-" ++
      sanitizeColorKey color).data =
      (("marker-" ++ (if strOptTruthy icon then icon.getD "" else "dot")).data ++ ['-']) ++
        (sanitizeColorKey color).data from rfl]
  rw [List.reverse_append, List.reverse_append]
  simp only [List.reverse_cons, List.reverse_nil, List.nil_append, List.append_assoc,
    List.singleton_append]
  rw [takeWhile_append_all (fun c hc => sanitizeColorKey_no_dash color c
    (List.mem_reverse.mp hc))]
  rw [show (('-' :: List.reverse ("marker-" ++
      (if strOptTruthy icon then icon.getD "" else "dot")).data).takeWhile
        (fun c => c != '-')) = [] from by simp [List.takeWhile_cons]]
  rw [List.append_nil, List.reverse_reverse]

theorem markerImageKey_def (mp : MarkerProps) (e : BasesEntry) :
    getMarkerImageKey (resolveMarkerStyle mp e).1 (resolveMarkerStyle mp e).2.1
      (resolveMarkerStyle mp e).2.2 = markerImageKey mp e := rfl

theorem contains_iff_mem {l : List String} {a : String} : l.contains a = true ↔ a ∈ l := by
  simp [List.contains_iff_exists_mem_beq, beq_iff_eq]

theorem buildImageQueue_mem (mp : MarkerProps) (loaded : List (String × ImageMeta))
    (ms : List BasesEntry) :
    ∀ (acc : List QueueItem) (key : String),
      key ∈ (buildImageQueue mp loaded ms acc).map (·.imageKey) ↔
        key ∈ acc.map (·.imageKey) ∨
          ((loadedLookup loaded key).isNone = true ∧ ∃ e ∈ ms, markerImageKey mp e = key) := by
  induction ms with
  | nil => intro acc key; simp [buildImageQueue]
  | cons e rest ih =>
    intro acc key
    simp only [buildImageQueue, markerImageKey_def]
    by_cases h1 : (loadedLookup loaded (markerImageKey mp e)).isSome = true
    · rw [if_pos h1, ih]
      constructor
      · rintro (h | ⟨hn, e', he', hk⟩)
        · exact Or.inl h
        · exact Or.inr ⟨hn, e', List.mem_cons_of_mem _ he', hk⟩
      · rintro (h | ⟨hn, e', he', hk⟩)
        · exact Or.inl h
        · rcases List.mem_cons.mp he' with heq | he''
          · exfalso
            subst heq
            rw [hk, Option.isNone_iff_eq_none.mp hn] at h1
            simp at h1
          · exact Or.inr ⟨hn, e', he'', hk⟩
    · rw [if_neg h1]
      by_cases h2 : (acc.map (·.imageKey)).contains (markerImageKey mp e) = true
      · rw [if_pos h2, ih]
        constructor
        · rintro (h | ⟨hn, e', he', hk⟩)
          · exact Or.inl h
          · exact Or.inr ⟨hn, e', List.mem_cons_of_mem _ he', hk⟩
        · rintro (h | ⟨hn, e', he', hk⟩)
          · exact Or.inl h
          · rcases List.mem_cons.mp he' with heq | he''
            · subst heq
              exact Or.inl (hk ▸ contains_iff_mem.mp h2)
            · exact Or.inr ⟨hn, e', he'', hk⟩
      · rw [if_neg h2, ih]
        simp only [List.map_append, List.map_cons, List.map_nil, List.mem_append,
          List.mem_singleton]
        constructor
        · rintro ((h | h) | ⟨hn, e', he', hk⟩)
          · exact Or.inl h
          · subst h
            refine Or.inr ⟨?_, e, List.mem_cons_self _ _, rfl⟩
            rw [Option.not_isSome_iff_eq_none.mp h1]
            rfl
          · exact Or.inr ⟨hn, e', List.mem_cons_of_mem _ he', hk⟩
        · rintro (h | ⟨hn, e', he', hk⟩)
          · exact Or.inl (Or.inl h)
          · rcases List.mem_cons.mp he' with heq | he''
            · subst heq
              exact Or.inl (Or.inr hk.symm)
            · exact Or.inr ⟨hn, e', he'', hk⟩

theorem buildImageQueue_nodup (mp : MarkerProps) (loaded : List (String × ImageMeta))
    (ms : List BasesEntry) :
    ∀ acc : List QueueItem, (acc.map (·.imageKey)).Nodup →
      ((buildImageQueue mp loaded ms acc).map (·.imageKey)).Nodup := by
  induction ms with
  | nil => intro acc hacc; simpa [buildImageQueue] using hacc
  | cons e rest ih =>
    intro acc hacc
    simp only [buildImageQueue, markerImageKey_def]
    by_cases h1 : (loadedLookup loaded (markerImageKey mp e)).isSome = true
    · rw [if_pos h1]; exact ih acc hacc
    · rw [if_neg h1]
      by_cases h2 : (acc.map (·.imageKey)).contains (markerImageKey mp e) = true
      · rw [if_pos h2]; exact ih acc hacc
      · rw [if_neg h2]
        refine ih _ ?_
        rw [List.map_append]
        refine List.Nodup.append hacc (by simp) ?_
        intro a ha hb
        simp only [List.map_cons, List.map_nil, List.mem_singleton] at hb
        subst hb
        exact h2 (contains_iff_mem.mpr ha)

theorem registerImages_count (parseSvg : String → ParsedSvg) (queue : List QueueItem) :
    ∀ (loaded : List (String × ImageMeta)) (registry : List String) (key : String),
      (registerImages parseSvg queue loaded registry).2.2.count (.addImage key) =
        (queue.map (·.imageKey)).count key := by
  induction queue with
  | nil => intro loaded registry key; simp [registerImages]
  | cons it rest ih =>
    intro loaded registry key
    simp only [registerImages]
    rw [List.count_append, List.count_append, ih]
    have hrm : (if registry.contains it.imageKey then ([.removeImage it.imageKey] : List Eff)
        else []).count (.addImage key) = 0 := by
      split <;> simp [List.count_cons, List.count_nil]
    rw [hrm]
    simp only [List.map_cons, List.count_cons, List.count_singleton]
    have : ((Eff.addImage it.imageKey) == (Eff.addImage key)) = (it.imageKey == key) := by
      by_cases h : it.imageKey = key <;> simp [h]
    simp [this, beq_iff_eq]
    by_cases h : it.imageKey = key <;> simp [h, Nat.add_comm]

theorem registerImages_effs (parseSvg : String → ParsedSvg) (queue : List QueueItem) :
    ∀ (loaded : List (String × ImageMeta)) (registry : List String),
      ∀ eff ∈ (registerImages parseSvg queue loaded registry).2.2,
        (∃ k, eff = Eff.addImage k) ∨ (∃ k, eff = Eff.removeImage k) := by
  induction queue with
  | nil => intro loaded registry eff h; simp [registerImages] at h
  | cons it rest ih =>
    intro loaded registry eff h
    simp only [registerImages] at h
    rcases List.mem_append.mp h with h | h
    · rcases List.mem_append.mp h with h | h
      · revert h
        split
        · intro h
          simp only [List.mem_singleton] at h
          exact Or.inr ⟨_, h⟩
        · intro h
          simp at h
      · simp only [List.mem_singleton] at h
        exact Or.inl ⟨_, h⟩
    · exact ih _ _ eff h

/-- Under one `loadMarkerImages` batch, the engine receives exactly one
`addImage` for a key that some marker resolves to and that is not yet
cached, and none for any other key. -/
theorem loadMarkerImages_count (mp : MarkerProps) (parseSvg : String → ParsedSvg)
    (loaded : List (String × ImageMeta)) (registry : List String)
    (ms : List BasesEntry) (key : String) :
    (loadMarkerImages mp parseSvg loaded registry ms).2.2.count (.addImage key) =
      if (loadedLookup loaded key).isNone = true ∧ ∃ e ∈ ms, markerImageKey mp e = key
      then 1 else 0 := by
  unfold loadMarkerImages
  rw [registerImages_count]
  have hmem := buildImageQueue_mem mp loaded ms [] key
  have hnd := buildImageQueue_nodup mp loaded ms [] (by simp)
  simp only [List.map_nil, List.not_mem_nil, false_or] at hmem
  split
  · exact List.count_eq_one_of_mem hnd (hmem.mpr (by assumption))
  · rw [List.count_eq_zero]
    intro hcon
    exact absurd (hmem.mp hcon) (by assumption)

/-- C5 (amended): markers with identical resolved icon and color (and no
custom SVG) share one image key, and one batch registers exactly one image
per needed key; and keys are distinct whenever the *sanitized* colors
(non-alphanumeric characters stripped) differ.  (Colors that differ only
in stripped characters collide — see the counterexample.) -/
theorem C5_marker_image_keys :
    (∀ (mp : MarkerProps) (e₁ e₂ : BasesEntry),
      getCustomIcon mp e₁ = getCustomIcon mp e₂ →
      getCustomColor mp e₁ = getCustomColor mp e₂ →
      getCustomSvg mp e₁ = none → getCustomSvg mp e₂ = none →
      markerImageKey mp e₁ = markerImageKey mp e₂) ∧
    (∀ (mp : MarkerProps) (parseSvg : String → ParsedSvg)
      (loaded : List (String × ImageMeta)) (registry : List String)
      (ms : List BasesEntry) (key : String),
      (loadMarkerImages mp parseSvg loaded registry ms).2.2.count (.addImage key) =
        if (loadedLookup loaded key).isNone = true ∧ ∃ e ∈ ms, markerImageKey mp e = key
        then 1 else 0) ∧
    (∀ (i₁ i₂ : Option String) (c₁ c₂ : String),
      sanitizeColorKey c₁ ≠ sanitizeColorKey c₂ →
      getMarkerImageKey i₁ c₁ none ≠ getMarkerImageKey i₂ c₂ none) := by
  refine ⟨?_, ?_, ?_⟩
  · intro mp e₁ e₂ h1 h2 h3 h4
    unfold markerImageKey resolveMarkerStyle
    rw [h1, h2, h3, h4]
  · intro mp parseSvg loaded registry ms key
    exact loadMarkerImages_count mp parseSvg loaded registry ms key
  · intro i₁ i₂ c₁ c₂ hdiff hkey
    exact hdiff (by rw [← keyColorToken_key i₁ c₁, ← keyColorToken_key i₂ c₂, hkey])

/-- The marker property bindings used by the C5 example entries. -/
def colorOnlyProps : MarkerProps :=
  { coordinatesProp := some "coords", markerIconProp := none,
    markerColorProp := some "color", markerSvgProp := none }

/-- An entry whose color property is the string `"#abc"`. -/
def entryHashColor : BasesEntry :=
  { path := "a.md", getValue := fun k => if k = "color" then some (.stringV "#abc") else none }

/-- An entry whose color property is the string `"abc"`. -/
def entryBareColor : BasesEntry :=
  { path := "b.md", getValue := fun k => if k = "color" then some (.stringV "abc") else none }

/-- A second entry with color `"#abc"` (same resolved style as
`entryHashColor`). -/
def entryHashColor2 : BasesEntry :=
  { path := "c.md", getValue := fun k => if k = "color" then some (.stringV "#abc") else none }

/-- C5 counterexample: two markers with *different* resolved colors
(`"#abc"` vs `"abc"`) still produce the *same* image key, because the key
strips non-alphanumeric characters from the color. -/
theorem C5_color_collision_counterexample :
    getCustomColor colorOnlyProps entryHashColor ≠ getCustomColor colorOnlyProps entryBareColor ∧
    markerImageKey colorOnlyProps entryHashColor = markerImageKey colorOnlyProps entryBareColor := by
  constructor
  · decide
  · decide

/-- Witness for C5: two markers with identical icon and color in one batch
register exactly one image under their shared key. -/
theorem C5_marker_image_keys_witness :
    (loadMarkerImages colorOnlyProps (fun s => .parseFail s) [] []
      [entryHashColor, entryHashColor2]).2.2.count (.addImage "marker-dot-abc") = 1 := by
  rw [C5_marker_image_keys.2.1 colorOnlyProps (fun s => .parseFail s) [] []
    [entryHashColor, entryHashColor2] "marker-dot-abc"]
  rw [if_pos ⟨by decide, entryHashColor, by simp, by decide⟩]

/-! ### C8: single source/layer, idempotent update -/

/-- A freshly created map: no `markers` source, no layers, no interaction
handlers, empty image registry. -/
def freshMarkersMap : MarkersMapState :=
  { hasMarkersSource := false, markersData := none, layers := [],
    interactionsSetupCount := 0, imageRegistry := [] }

/-- Whether an effect is a geometry-source data replacement. -/
def Eff.isSetData : Eff → Bool
  | .setData _ _ => true
  | _ => false

/-- C8: starting from a fresh map, the first `updateMarkers` creates the
source, exactly one layer, and attaches the interaction handlers; a second
call with the same marker set replaces the feature collection with a
single `setData` call, creates no further source or layer and attaches no
further handlers, and the layer count stays at one. -/
theorem C8_update_markers_idempotent (mp : MarkerProps) (parseSvg : String → ParsedSvg)
    (entries : List (Option BasesEntry)) (mgr : MarkerMgrState)
    (hcoord : strOptTruthy mp.coordinatesProp = true) :
    (updateMarkers (some mp) parseSvg (some entries) true mgr freshMarkersMap).2.1.layers =
      ["marker-pins"] ∧
    (updateMarkers (some mp) parseSvg (some entries) true mgr
      freshMarkersMap).2.1.interactionsSetupCount = 1 ∧
    Eff.addSource "markers" ∈
      (updateMarkers (some mp) parseSvg (some entries) true mgr freshMarkersMap).2.2 ∧
    ((updateMarkers (some mp) parseSvg (some entries) true
      (updateMarkers (some mp) parseSvg (some entries) true mgr freshMarkersMap).1
      (updateMarkers (some mp) parseSvg (some entries) true mgr
        freshMarkersMap).2.1).2.1.layers = ["marker-pins"] ∧
     (updateMarkers (some mp) parseSvg (some entries) true
      (updateMarkers (some mp) parseSvg (some entries) true mgr freshMarkersMap).1
      (updateMarkers (some mp) parseSvg (some entries) true mgr
        freshMarkersMap).2.1).2.1.interactionsSetupCount = 1 ∧
     ((updateMarkers (some mp) parseSvg (some entries) true
      (updateMarkers (some mp) parseSvg (some entries) true mgr freshMarkersMap).1
      (updateMarkers (some mp) parseSvg (some entries) true mgr
        freshMarkersMap).2.1).2.2.filter Eff.isSetData).length = 1 ∧
     (∀ eff ∈ (updateMarkers (some mp) parseSvg (some entries) true
      (updateMarkers (some mp) parseSvg (some entries) true mgr freshMarkersMap).1
      (updateMarkers (some mp) parseSvg (some entries) true mgr
        freshMarkersMap).2.1).2.2,
        (∀ id, eff ≠ .addSource id) ∧ (∀ id, eff ≠ .addLayer id) ∧ eff ≠ .setupInteractions)) := by
  have hguard : (!true || !strOptTruthy mp.coordinatesProp) = false := by
    rw [hcoord]; rfl
  simp only [updateMarkers, hguard, Bool.false_eq_true, if_false]
  simp only [freshMarkersMap, Bool.false_eq_true, if_false]
  refine ⟨by simp, by simp, by simp, ?_⟩
  simp only [if_true]
  refine ⟨by simp, by simp, ?_, ?_⟩
  · rw [List.filter_append]
    have himg : ∀ (q : List QueueItem) (l : List (String × ImageMeta)) (r : List String),
        ((registerImages parseSvg q l r).2.2.filter Eff.isSetData) = [] := by
      intro q
      induction q with
      | nil => intro l r; simp [registerImages]
      | cons it rest ih =>
        intro l r
        simp only [registerImages, List.filter_append]
        rw [ih]
        have : ((if r.contains it.imageKey then ([.removeImage it.imageKey] : List Eff)
            else []).filter Eff.isSetData) = [] := by
          split <;> simp [Eff.isSetData]
        rw [this]
        simp [Eff.isSetData]
    rw [show (loadMarkerImages mp parseSvg _ _ _).2.2.filter Eff.isSetData = [] from himg _ _ _]
    simp [Eff.isSetData]
  · intro eff heff
    rcases List.mem_append.mp heff with h | h
    · rcases registerImages_effs parseSvg _ _ _ eff h with ⟨k, rfl⟩ | ⟨k, rfl⟩
      · exact ⟨fun i => by simp, fun i => by simp, by simp⟩
      · exact ⟨fun i => by simp, fun i => by simp, by simp⟩
    · simp only [List.mem_singleton] at h
      subst h
      exact ⟨fun i => by simp, fun i => by simp, by simp⟩

/-- A record entry carrying coordinates `[10, 20]` under the `coords`
property. -/
def coordEntry : BasesEntry :=
  { path := "a.md"
    getValue := fun k =>
      if k = "coords" then some (.listV [.numberV 10, .numberV 20]) else none }

/-- An empty marker-manager state. -/
def emptyMgr : MarkerMgrState :=
  { markers := [], bounds := none, loadedMarkerImages := [] }

/-- Witness for C8 at a concrete dataset: one entry with coordinates
`[10, 20]`. -/
theorem C8_update_markers_idempotent_witness :
    (updateMarkers (some colorOnlyProps) (fun s => .parseFail s)
      (some [some coordEntry]) true emptyMgr freshMarkersMap).2.1.layers = ["marker-pins"] := by
  exact (C8_update_markers_idempotent colorOnlyProps (fun s => .parseFail s)
    [some coordEntry] emptyMgr (by decide)).1

/-! ## `map/style.ts`: `StyleManager.getMapStyle` -/

/-- Whether `pat` occurs at the head of the list. -/
def startsWithChars : List Char → List Char → Bool
  | _, [] => true
  | [], _ :: _ => false
  | c :: cs, p :: ps => c = p && startsWithChars cs ps

/-- Whether `pat` occurs anywhere in the list (`String.includes`). -/
def hasSubstringChars : List Char → List Char → Bool
  | [], pat => pat.isEmpty
  | c :: rest, pat => startsWithChars (c :: rest) pat || hasSubstringChars rest pat

/-- JavaScript `url.includes(pat)`. -/
def containsSubstr (s pat : String) : Bool := hasSubstringChars s.data pat.data

/-- `StyleManager.isTileTemplateUrl`: the URL contains a `\x7bz\x7d`,
`\x7bx\x7d` or `\x7by\x7d` placeholder. -/
def isTileTemplateUrl (url : String) : Bool :=
  containsSubstr url "\x7bz\x7d" || containsSubstr url "\x7bx\x7d" || containsSubstr url "\x7by\x7d"

/-- First match of the regex `access_token=([^&]+)`: the earliest position
where `access_token=` is followed by at least one non-`&` character. -/
def findAccessTokenAux : List Char → Option (List Char)
  | [] => none
  | c :: rest =>
    if startsWithChars (c :: rest) "access_token=".data then
      let t := ((c :: rest).drop "access_token=".data.length).takeWhile (fun ch => ch != '&')
      if t.isEmpty then findAccessTokenAux rest else some t
    else findAccessTokenAux rest

/-- The captured access token of a style URL, when present. -/
def extractAccessToken (url : String) : Option String :=
  (findAccessTokenAux url.data).map (fun t => ⟨t⟩)

/-- Outcome of `fetch(styleUrl)` followed by `response.json()`: a parsed
JSON document, or any failure (`!response.ok`, network error, bad JSON). -/
inductive FetchResult where
  | ok (json : JSVal)
  | fail

/-- The value returned by `StyleManager.getMapStyle`: a bare style URL
(fetch-failure fallback), a fetched (possibly Mapbox-transformed) style
document, or a synthesized raster style (source id/tile URL pairs and
layer id/source id pairs). -/
inductive MapStyleResult where
  | styleUrl (url : String)
  | fetchedDoc (doc : JSVal)
  | raster (sources : List (String × String)) (layers : List (String × String))

/-- Default style URL for dark mode. -/
def darkDefaultStyleUrl : String := "https://tiles.openfreemap.org/styles/dark"

/-- Default style URL for light mode. -/
def lightDefaultStyleUrl : String := "https://tiles.openfreemap.org/styles/bright"

/-- The sources of the synthesized raster style: `custom-tiles-N`. -/
def rasterSources (tileUrls : List String) : List (String × String) :=
  tileUrls.enum.map (fun iu => ("custom-tiles-" ++ toString iu.1, iu.2))

/-- The layers of the synthesized raster style: `custom-layer-N`, each
referring to `custom-tiles-N`. -/
def rasterLayers (tileUrls : List String) : List (String × String) :=
  tileUrls.enum.map (fun iu => ("custom-layer-" ++ toString iu.1, "custom-tiles-" ++ toString iu.1))

/-- The style-URL fetch of `getMapStyle`: on success, apply
`transformMapboxStyle` (the external `mapbox-transform` module, passed in
as `transform`) exactly when an access token is present in the URL; on
failure, fall back to returning the bare URL. -/
def fetchStyle (fetch : String → FetchResult) (transform : JSVal → String → JSVal)
    (styleUrl : String) : MapStyleResult :=
  match fetch styleUrl with
  | .ok json =>
    match extractAccessToken styleUrl with
    | some tok => .fetchedDoc (transform json tok)
    | none => .fetchedDoc json
  | .fail => .styleUrl styleUrl

/-- `getMapStyle` after theme selection: empty list uses the
theme-appropriate default style URL; a single non-template entry is a
style-document URL; otherwise a raster style is synthesized. -/
def styleForUrls (fetch : String → FetchResult) (transform : JSVal → String → JSVal)
    (isDark : Bool) (tileUrls : List String) : MapStyleResult :=
  if tileUrls.length = 0 then
    fetchStyle fetch transform (if isDark then darkDefaultStyleUrl else lightDefaultStyleUrl)
  else if tileUrls.length = 1 && !isTileTemplateUrl (tileUrls.getD 0 "") then
    fetchStyle fetch transform (tileUrls.getD 0 "")
  else
    .raster (rasterSources tileUrls) (rasterLayers tileUrls)

/-- `StyleManager.getMapStyle`: select the dark list exactly when the
theme is dark and that list is non-empty, then process the selection. -/
def getMapStyle (fetch : String → FetchResult) (transform : JSVal → String → JSVal)
    (isDark : Bool) (mapTiles mapTilesDark : List String) : MapStyleResult :=
  styleForUrls fetch transform isDark
    (if isDark && mapTilesDark.length > 0 then mapTilesDark else mapTiles)

/-- C7: `getMapStyle` selects the dark list exactly when the theme is dark
and that list is non-empty, otherwise the light list; an empty selection
uses the theme-appropriate built-in default style URL; a single
non-template entry is treated as a style-document URL (fetched, with
Mapbox rewriting applied exactly when an access token is present in the
URL, and degrading to the bare URL on fetch failure); otherwise a raster
style is synthesized whose i-th source is `custom-tiles-i` (with the i-th
URL) and whose i-th layer is `custom-layer-i`. -/
theorem C7_get_map_style :
    (∀ (f : String → FetchResult) (t : JSVal → String → JSVal) (light dark : List String),
      dark ≠ [] → getMapStyle f t true light dark = styleForUrls f t true dark) ∧
    (∀ (f : String → FetchResult) (t : JSVal → String → JSVal) (isDark : Bool)
      (light dark : List String),
      isDark = false ∨ dark = [] → getMapStyle f t isDark light dark = styleForUrls f t isDark light) ∧
    (∀ (f : String → FetchResult) (t : JSVal → String → JSVal) (isDark : Bool),
      styleForUrls f t isDark [] =
        fetchStyle f t (if isDark then darkDefaultStyleUrl else lightDefaultStyleUrl)) ∧
    (∀ (f : String → FetchResult) (t : JSVal → String → JSVal) (isDark : Bool) (u : String),
      isTileTemplateUrl u = false → styleForUrls f t isDark [u] = fetchStyle f t u) ∧
    (∀ (f : String → FetchResult) (t : JSVal → String → JSVal) (u : String)
      (json : JSVal) (tok : String),
      f u = .ok json → extractAccessToken u = some tok →
      fetchStyle f t u = .fetchedDoc (t json tok)) ∧
    (∀ (f : String → FetchResult) (t : JSVal → String → JSVal) (u : String) (json : JSVal),
      f u = .ok json → extractAccessToken u = none → fetchStyle f t u = .fetchedDoc json) ∧
    (∀ (f : String → FetchResult) (t : JSVal → String → JSVal) (u : String),
      f u = .fail → fetchStyle f t u = .styleUrl u) ∧
    (∀ (f : String → FetchResult) (t : JSVal → String → JSVal) (isDark : Bool)
      (urls : List String),
      urls ≠ [] → (urls.length ≠ 1 ∨ isTileTemplateUrl (urls.getD 0 "") = true) →
      styleForUrls f t isDark urls = .raster (rasterSources urls) (rasterLayers urls)) ∧
    (∀ (urls : List String) (i : ℕ) (u : String), urls[i]? = some u →
      (rasterSources urls)[i]? = some ("custom-tiles-" ++ toString i, u) ∧
      (rasterLayers urls)[i]? =
        some ("custom-layer-" ++ toString i, "custom-tiles-" ++ toString i)) := by
  refine ⟨?_, ?_, ?_, ?_, ?_, ?_, ?_, ?_, ?_⟩
  · intro f t light dark h
    cases dark with
    | nil => exact absurd rfl h
    | cons a l => simp [getMapStyle]
  · intro f t isDark light dark h
    rcases h with h | h
    · subst h; simp [getMapStyle]
    · subst h; simp [getMapStyle]
  · intro f t isDark
    rfl
  · intro f t isDark u h
    simp [styleForUrls, h]
  · intro f t u json tok hf ht
    unfold fetchStyle
    rw [hf, ht]
  · intro f t u json hf ht
    unfold fetchStyle
    rw [hf, ht]
  · intro f t u hf
    unfold fetchStyle
    rw [hf]
  · intro f t isDark urls hne hcase
    have hlen : ¬ urls.length = 0 := by
      cases urls with
      | nil => exact absurd rfl hne
      | cons a l => simp
    unfold styleForUrls
    rw [if_neg hlen]
    rcases hcase with h | h
    · rw [if_neg (by simp [h])]
    · rw [if_neg (by simp [List.getD] at h; simp [h])]
  · intro urls i u h
    constructor
    · simp [rasterSources, List.getElem?_map, List.getElem?_enum, h]
    · simp [rasterLayers, List.getElem?_map, List.getElem?_enum, h]

/-- Witness for C7: in light mode a single non-template URL whose fetch
fails degrades to the bare URL, and two template URLs synthesize the
tagged raster style. -/
theorem C7_get_map_style_witness :
    getMapStyle (fun _ => .fail) (fun j _ => j) false ["https://example.com/style.json"] [] =
      .styleUrl "https://example.com/style.json" ∧
    (rasterSources ["https://a/\x7bz\x7d", "https://b/\x7bz\x7d"])[1]? =
      some ("custom-tiles-1", "https://b/\x7bz\x7d") := by
  constructor
  · rw [C7_get_map_style.2.1 (fun _ => .fail) (fun j _ => j) false
      ["https://example.com/style.json"] [] (Or.inl rfl)]
    rw [C7_get_map_style.2.2.2.1 (fun _ => .fail) (fun j _ => j) false
      "https://example.com/style.json" (by decide)]
    exact C7_get_map_style.2.2.2.2.2.2.1 (fun _ => .fail) (fun j _ => j)
      "https://example.com/style.json" rfl
  · exact (C7_get_map_style.2.2.2.2.2.2.2.2 ["https://a/\x7bz\x7d", "https://b/\x7bz\x7d"] 1
      "https://b/\x7bz\x7d" rfl).1

/-! ## `map/popup.ts`: `PopupManager` -/

mutual

/-- `PopupManager.hasNonEmptyValue`: truthy, and for list values
recursively some element non-empty. -/
def hasNonEmptyValue : Value → Bool
  | .listV items => (Value.listV items).isTruthy && anyItemNonEmpty items
  | v => v.isTruthy

/-- The element scan of `hasNonEmptyValue` over a list value's items. -/
def anyItemNonEmpty : List Value → Bool
  | [] => false
  | v :: rest => hasNonEmptyValue v || anyItemNonEmpty rest

end

/-- Whether a property is one of the configured coordinate/icon/color
roles (skipped in popup content). -/
def isRoleProp (coordProp iconProp colorProp : Option String) (p : String) : Bool :=
  some p = coordProp || some p = iconProp || some p = colorProp

/-- `PopupManager.hasAnyPropertyValues`: among the first 20 declared
properties, skipping the configured roles, some property of the record
has a non-empty value (lookups that throw or return `null` count as
empty). -/
def hasAnyPropertyValues (e : BasesEntry) (properties : List String)
    (coordProp iconProp colorProp : Option String) : Bool :=
  (properties.take 20).any (fun p =>
    if isRoleProp coordProp iconProp colorProp p then false
    else
      match e.getValue p with
      | some v => hasNonEmptyValue v
      | none => false)

/-- The `PopupManager` state observable across `showPopup`. -/
structure PopupState where
  mapPresent : Bool
  sharedPopupExists : Bool
  hideTimeoutArmed : Bool
deriving DecidableEq

/-- Popup-level effects. -/
inductive PopupEff where
  | createPopup
  | setContent
  | setLngLat (lng lat : ℚ)
  | addToMap
deriving DecidableEq

/-- `PopupManager.showPopup`: a no-op without a map, with an empty
property list, or when no displayable property has a non-empty value;
otherwise it cancels a pending hide, lazily creates the shared popup, and
sets content and position. -/
def showPopup (st : PopupState) (e : BasesEntry) (coordinates : ℚ × ℚ)
    (properties : List String) (coordProp iconProp colorProp : Option String) :
    PopupState × List PopupEff :=
  if !st.mapPresent then (st, [])
  else if properties.isEmpty ||
      !hasAnyPropertyValues e properties coordProp iconProp colorProp then (st, [])
  else
    let createEffs : List PopupEff := if st.sharedPopupExists then [] else [.createPopup]
    ({ st with sharedPopupExists := true, hideTimeoutArmed := false },
     createEffs ++ [.setContent, .setLngLat coordinates.2 coordinates.1, .addToMap])

/-- C9: `showPopup` is a no-op — state unchanged, no popup created,
positioned or displayed — whenever, among the first 20 declared
properties excluding the configured coordinate/icon/color roles, no
property of the record has a non-empty value, where non-empty means truthy
and, for list values, recursively that some element is non-empty. -/
theorem C9_popup_noop_when_empty :
    (∀ (st : PopupState) (e : BasesEntry) (coordinates : ℚ × ℚ) (properties : List String)
      (coordProp iconProp colorProp : Option String),
      (∀ p ∈ properties.take 20, isRoleProp coordProp iconProp colorProp p = false →
        ∀ v, e.getValue p = some v → hasNonEmptyValue v = false) →
      showPopup st e coordinates properties coordProp iconProp colorProp = (st, [])) ∧
    (∀ items : List Value,
      hasNonEmptyValue (.listV items) =
        ((Value.listV items).isTruthy && items.any (fun v => hasNonEmptyValue v))) ∧
    (∀ q : ℚ, hasNonEmptyValue (.numberV q) = (Value.numberV q).isTruthy) ∧
    (∀ s : String, hasNonEmptyValue (.stringV s) = (Value.stringV s).isTruthy) := by
  refine ⟨?_, ?_, ?_, ?_⟩
  · intro st e coordinates properties coordProp iconProp colorProp hempty
    have hany : hasAnyPropertyValues e properties coordProp iconProp colorProp = false := by
      unfold hasAnyPropertyValues
      rw [List.any_eq_false]
      intro p hp
      by_cases hrole : isRoleProp coordProp iconProp colorProp p = true
      · simp [hrole]
      · rw [if_neg hrole]
        cases hv : e.getValue p with
        | none => simp
        | some v =>
          have hred : (match some v with
              | some w => hasNonEmptyValue w
              | none => false) = hasNonEmptyValue v := rfl
          rw [hred, hempty p hp (by rwa [Bool.not_eq_true] at hrole) v hv]
          simp
    unfold showPopup
    by_cases hm : st.mapPresent
    · rw [if_neg (by simp [hm])]
      rw [if_pos (by simp [hany])]
    · rw [if_pos (by simp [hm])]
  · intro items
    have h : anyItemNonEmpty items = items.any (fun v => hasNonEmptyValue v) := by
      induction items with
      | nil => rfl
      | cons v rest ih => simp [anyItemNonEmpty, ih]
    rw [show hasNonEmptyValue (.listV items) =
      ((Value.listV items).isTruthy && anyItemNonEmpty items) from rfl, h]
  · intro q; rfl
  · intro s; rfl

/-- Witness for C9: with one property whose value is a list of empty
strings, `showPopup` leaves the state untouched and emits nothing. -/
theorem C9_popup_noop_when_empty_witness :
    showPopup ⟨true, false, false⟩
      ⟨"a.md", fun k => if k = "note" then some (.listV [.stringV "", .stringV ""]) else none⟩
      (10, 20) ["note"] (some "coords") none none = (⟨true, false, false⟩, []) := by
  refine C9_popup_noop_when_empty.1 ⟨true, false, false⟩
    ⟨"a.md", fun k => if k = "note" then some (.listV [.stringV "", .stringV ""]) else none⟩
    (10, 20) ["note"] (some "coords") none none ?_
  intro p hp hrole v hv
  simp only [List.take, List.mem_singleton] at hp
  subst hp
  have hv2 : (some (Value.listV [Value.stringV "", Value.stringV ""]) : Option Value) = some v := hv
  injection hv2 with hv2
  subst hv2
  decide

/-! ## `map-view.ts`: view lifecycle, camera policy, ephemeral state -/

mutual

theorem JSVal.beq_refl : ∀ v : JSVal, JSVal.beq v v = true
  | .undef => rfl
  | .nullv => rfl
  | .num a => by simp [JSVal.beq]
  | .str a => by simp [JSVal.beq]
  | .boolv a => by simp [JSVal.beq]
  | .obj a => JSVal.beqFields_refl a
  | .arr a => JSVal.beqItems_refl a

theorem JSVal.beqFields_refl : ∀ l : List (String × JSVal), JSVal.beqFields l l = true
  | [] => rfl
  | (k, v) :: r => by
    simp only [JSVal.beqFields, Bool.and_eq_true, beq_self_eq_true, true_and]
    exact ⟨JSVal.beq_refl v, JSVal.beqFields_refl r⟩

theorem JSVal.beqItems_refl : ∀ l : List JSVal, JSVal.beqItems l l = true
  | [] => rfl
  | v :: r => by
    simp only [JSVal.beqItems, Bool.and_eq_true]
    exact ⟨JSVal.beq_refl v, JSVal.beqItems_refl r⟩

end

/-- Whether a JavaScript value is a JSON primitive (not an object or
array); after a serialize/parse round trip, `!==` on primitives compares
by value while objects and arrays compare by (always fresh) reference. -/
def JSVal.isPrimitive : JSVal → Bool
  | .obj _ => false
  | .arr _ => false
  | _ => true

/-- JavaScript `!==` on two values freshly produced by `JSON.parse`:
value inequality for primitives, always `true` when either side is an
object or array (distinct references). -/
def jsStrictNeq (a b : JSVal) : Bool :=
  if a.isPrimitive && b.isPrimitive then !JSVal.beq a b else true

theorem jsStrictNeq_self_primitive {a : JSVal} (h : a.isPrimitive = true) :
    jsStrictNeq a a = false := by
  unfold jsStrictNeq
  rw [if_pos (by simp [h])]
  simp [JSVal.beq_refl]

/-- `typeof v === 'number'` / `Number.isNumber`. -/
def isNumberVal : JSVal → Bool
  | .num _ => true
  | _ => false

/-- JavaScript loose `value != null` (neither `null` nor `undefined`). -/
def isNotNullish : JSVal → Bool
  | .nullv => false
  | .undef => false
  | _ => true

/-- The serialized configuration snapshot of `getConfigSnapshot` (the
JSON object; string serialization equality is structural equality). -/
structure Snapshot where
  center : JSVal
  defaultZoom : JSVal
  minZoom : JSVal
  maxZoom : JSVal
  mapHeight : JSVal
  mapTiles : JSVal
  mapTilesDark : JSVal

/-- `MapView.getConfigSnapshot`. -/
def getConfigSnapshot (cfg : String → JSVal) : Snapshot :=
  { center := cfg "center", defaultZoom := cfg "defaultZoom", minZoom := cfg "minZoom",
    maxZoom := cfg "maxZoom", mapHeight := cfg "mapHeight", mapTiles := cfg "mapTiles",
    mapTilesDark := cfg "mapTilesDark" }

/-- Equality of serialized snapshots. -/
def Snapshot.beq (a b : Snapshot) : Bool :=
  JSVal.beq a.center b.center && JSVal.beq a.defaultZoom b.defaultZoom &&
  JSVal.beq a.minZoom b.minZoom && JSVal.beq a.maxZoom b.maxZoom &&
  JSVal.beq a.mapHeight b.mapHeight && JSVal.beq a.mapTiles b.mapTiles &&
  JSVal.beq a.mapTilesDark b.mapTilesDark

theorem Snapshot.beq_self (a : Snapshot) : Snapshot.beq a a = true := by
  unfold Snapshot.beq
  simp [JSVal.beq_refl]

/-- Structural equality of style results (`JSON.stringify` comparison of
the style about to be set against the map's current style; the map's
current style is modelled as the last style handed to the engine). -/
def MapStyleResult.beq : MapStyleResult → MapStyleResult → Bool
  | .styleUrl a, .styleUrl b => a == b
  | .fetchedDoc a, .fetchedDoc b => JSVal.beq a b
  | .raster s1 l1, .raster s2 l2 => s1 == s2 && l1 == l2
  | _, _ => false

theorem MapStyleResult.beq_id (a : MapStyleResult) : MapStyleResult.beq a a = true := by
  cases a <;> simp [MapStyleResult.beq, JSVal.beq_refl]

/-- The pending ephemeral camera state (`pendingMapState`): an object
with optional center (as `(lng, lat)`) and optional zoom. -/
structure PendingState where
  center : Option (ℚ × ℚ)
  zoom : Option ℚ
deriving DecidableEq

/-- The rendering-engine map object as far as the view observes it:
camera, zoom constraints, and the last style handed to the engine
(camera math such as bounds-fitting is the engine's own and out of
scope). -/
structure MapLibreMap where
  centerLng : ℚ
  centerLat : ℚ
  zoom : ℚ
  minZoom : ℚ
  maxZoom : ℚ
  style : MapStyleResult

/-- The `MapView`'s mutable state. -/
structure ViewState where
  map : Option MapLibreMap
  mapConfig : Option MapConfig
  pendingMapState : Option PendingState
  isFirstLoad : Bool
  lastConfigSnapshot : Option Snapshot
  lastEvaluatedCenter : ℚ × ℚ
  loadHandlerRestoring : Option Bool
  mgr : MarkerMgrState
  markersMap : MarkersMapState

/-- The environment of one dataset update: raw configuration, evaluated
center formula, embedding flag, plugin tile sets, current dataset, theme,
and the external fetch / Mapbox-transform / SVG-parse collaborators. -/
structure Env where
  cfg : String → JSVal
  centerFormula : Option Value
  isEmbedded : Bool
  tileSets : List TileSet
  data : Option (List (Option BasesEntry))
  isDark : Bool
  fetch : String → FetchResult
  transform : JSVal → String → JSVal
  parseSvg : String → ParsedSvg
  boundsCenter : List (ℚ × ℚ) → ℚ × ℚ
  fitBoundsCam : List (ℚ × ℚ) → (ℚ × ℚ) × ℚ

/-- The property bindings `MarkerManager` reads off a loaded `MapConfig`
(`markerSvgProp` is not a field `loadConfig` populates, so reading it
yields undefined/`none`). -/
def MapConfig.markerProps (mc : MapConfig) : MarkerProps :=
  { coordinatesProp := mc.coordinatesProp, markerIconProp := mc.markerIconProp,
    markerColorProp := mc.markerColorProp, markerSvgProp := none }

/-- JavaScript `x || null` on a `string | null | undefined` value. -/
def jsOrNullStr : Option String → Option String
  | some s => if s = "" then none else some s
  | none => none

/-- `MapView.initializeMap`: a no-op when a map already exists; otherwise
reload the configuration, set the container height, resolve the style,
and construct the map — preferring a pending ephemeral camera state over
the configured center/zoom for the initial position.  The registered
`load` handler captures whether a restore was in progress
(`loadHandlerRestoring`). -/
def initializeMap (env : Env) (vs : ViewState) : ViewState × List Eff :=
  match vs.map with
  | some _ => (vs, [])
  | none =>
    let currentTileSetId := jsOrNullStr (vs.mapConfig.bind (·.currentTileSetId))
    let mc := loadConfig env.cfg env.centerFormula env.isEmbedded env.tileSets currentTileSetId
    let heightEff : Eff := if env.isEmbedded then .setHeightPx mc.mapHeight else .clearHeight
    let style := getMapStyle env.fetch env.transform env.isDark mc.mapTiles mc.mapTilesDark
    let isRestoring := vs.pendingMapState.isSome
    let initialCenter : ℚ × ℚ :=
      match vs.pendingMapState with
      | some p =>
        match p.center with
        | some c => c
        | none => (mc.center.2, mc.center.1)
      | none => (mc.center.2, mc.center.1)
    let initialZoom : ℚ :=
      match vs.pendingMapState with
      | some p =>
        match p.zoom with
        | some z => z
        | none => mc.defaultZoom
      | none => mc.defaultZoom
    let m : MapLibreMap :=
      { centerLng := initialCenter.1, centerLat := initialCenter.2, zoom := initialZoom,
        minZoom := mc.minZoom, maxZoom := mc.maxZoom, style := style }
    ({ vs with map := some m, mapConfig := some mc, loadHandlerRestoring := some isRestoring },
     [heightEff, .createMap initialCenter.1 initialCenter.2 initialZoom])

/-- The map `load` handler registered in `initializeMap`: suppressed
entirely when a restore was in progress at registration or a pending
state still exists; otherwise it places the camera from the configured
center/zoom, falling back to centering on the marker bounds and fitting
the bounds. -/
def onMapLoad (env : Env) (vs : ViewState) : ViewState × List Eff :=
  match vs.map, vs.mapConfig, vs.loadHandlerRestoring with
  | some m, some mc, some restoring =>
    if restoring || vs.pendingMapState.isSome then (vs, [])
    else
      let hasConfiguredCenter : Bool := !(decide (mc.center.1 = 0)) || !(decide (mc.center.2 = 0))
      let hasConfiguredZoom : Bool :=
        (env.cfg "defaultZoom").truthy && isNumberVal (env.cfg "defaultZoom")
      let st1 : MapLibreMap × List Eff :=
        if hasConfiguredCenter then
          ({ m with centerLng := mc.center.2, centerLat := mc.center.1 },
           [.setCenter mc.center.2 mc.center.1])
        else
          match vs.mgr.bounds with
          | some pts =>
            ({ m with centerLng := (env.boundsCenter pts).1, centerLat := (env.boundsCenter pts).2 },
             [.setCenterBounds])
          | none => (m, [])
      let st2 : MapLibreMap × List Eff :=
        if hasConfiguredZoom then
          ({ st1.1 with zoom := mc.defaultZoom }, st1.2 ++ [.setZoom mc.defaultZoom])
        else
          match vs.mgr.bounds with
          | some pts =>
            let fc := env.fitBoundsCam pts
            ({ st1.1 with centerLng := fc.1.1, centerLat := fc.1.2, zoom := fc.2 },
             st1.2 ++ [.fitBounds])
          | none => (st1.1, st1.2)
      ({ vs with map := some st2.1 }, st2.2)
  | _, _, _ => (vs, [])

/-- `MapView.updateZoom`: reapply the configured zoom when the raw
`defaultZoom` is non-nullish. -/
def updateZoom (env : Env) (vs : ViewState) : ViewState × List Eff :=
  match vs.map, vs.mapConfig with
  | some m, some mc =>
    if isNotNullish (env.cfg "defaultZoom") then
      ({ vs with map := some { m with zoom := mc.defaultZoom } }, [.setZoom mc.defaultZoom])
    else (vs, [])
  | _, _ => (vs, [])

/-- `MapView.updateCenter`: recenter on the configured center only when
one is configured (non-`(0,0)`) and the camera actually differs from it
by more than `1e-5` in either coordinate. -/
def updateCenter (vs : ViewState) : ViewState × List Eff :=
  match vs.map, vs.mapConfig with
  | some m, some mc =>
    if !(decide (mc.center.1 = 0)) || !(decide (mc.center.2 = 0)) then
      if |m.centerLng - mc.center.2| > 1 / 100000 ∨ |m.centerLat - mc.center.1| > 1 / 100000 then
        ({ vs with map := some { m with centerLng := mc.center.2, centerLat := mc.center.1 } },
         [.setCenter mc.center.2 mc.center.1])
      else (vs, [])
    else (vs, [])
  | _, _ => (vs, [])

/-- The field of the parsed old snapshot (`oldConfig?.field`), `undefined`
when there was no previous snapshot. -/
def oldSnapField (oldSnap : Option Snapshot) (f : Snapshot → JSVal) : JSVal :=
  match oldSnap with
  | some s => f s
  | none => (.undef : JSVal)

/-- `MapView.applyConfigToMap`: diff the parsed snapshots; always reassert
the zoom constraints and clamp the current zoom; reapply zoom/center only
on first load or when the respective raw field changed (and never while an
ephemeral restore is pending); rebuild the style (and clear the marker
image cache) only on first load or when the tile lists changed and the
new style differs; reapply the height (with a resize) only on first load
or when the raw height changed. -/
def applyConfigToMap (env : Env) (vs : ViewState) (oldSnap : Option Snapshot)
    (newSnap : Snapshot) : ViewState × List Eff :=
  match vs.map, vs.mapConfig with
  | some m, some mc =>
    let centerConfigChanged := jsStrictNeq (oldSnapField oldSnap (·.center)) newSnap.center
    let zoomConfigChanged := jsStrictNeq (oldSnapField oldSnap (·.defaultZoom)) newSnap.defaultZoom
    let tilesChanged := !(JSVal.beq (oldSnapField oldSnap (·.mapTiles)) newSnap.mapTiles) ||
      !(JSVal.beq (oldSnapField oldSnap (·.mapTilesDark)) newSnap.mapTilesDark)
    let heightChanged := jsStrictNeq (oldSnapField oldSnap (·.mapHeight)) newSnap.mapHeight
    let m1 : MapLibreMap := { m with minZoom := mc.minZoom, maxZoom := mc.maxZoom }
    let e1 : List Eff := [.setMinZoom mc.minZoom, .setMaxZoom mc.maxZoom]
    let c2 : MapLibreMap × List Eff :=
      if m1.zoom < mc.minZoom then ({ m1 with zoom := mc.minZoom }, [.setZoom mc.minZoom])
      else if m1.zoom > mc.maxZoom then ({ m1 with zoom := mc.maxZoom }, [.setZoom mc.maxZoom])
      else (m1, [])
    let hasEphemeralState := vs.pendingMapState.isSome
    let vs2 := { vs with map := some c2.1 }
    let r3 : ViewState × List Eff :=
      if !hasEphemeralState && (vs.isFirstLoad || zoomConfigChanged) then updateZoom env vs2
      else (vs2, [])
    let r4 : ViewState × List Eff :=
      if !hasEphemeralState && (vs.isFirstLoad || centerConfigChanged) then updateCenter r3.1
      else (r3.1, [])
    let r5 : ViewState × List Eff :=
      if vs.isFirstLoad || tilesChanged then
        let newStyle := getMapStyle env.fetch env.transform env.isDark mc.mapTiles mc.mapTilesDark
        match r4.1.map with
        | some m4 =>
          if !(MapStyleResult.beq newStyle m4.style) then
            let mgr5 := { r4.1.mgr with loadedMarkerImages := ([] : List (String × ImageMeta)) }
            ({ r4.1 with map := some { m4 with style := newStyle }, mgr := mgr5 },
             [.setStyle, .clearMarkerImages])
          else (r4.1, [])
        | none => (r4.1, [])
      else (r4.1, [])
    let r6 : ViewState × List Eff :=
      if vs.isFirstLoad || heightChanged then
        (r5.1, (if env.isEmbedded then [Eff.setHeightPx mc.mapHeight] else [Eff.clearHeight]) ++
          [Eff.resize])
      else (r5.1, [])
    (r6.1, e1 ++ c2.2 ++ r3.2 ++ r4.2 ++ r5.2 ++ r6.2)
  | _, _ => (vs, [])

/-- `MapView.setEphemeralState`'s parsing of the restored state: falsy
clears the pending state; otherwise an empty pending state is created and
`center` / `zoom` are copied in only when they are numbers (non-numeric
fields are silently dropped). -/
def parsePendingState (state : JSVal) : Option PendingState :=
  if !state.truthy then none
  else some
    { center :=
        match state.getField "center" with
        | some c =>
          match c.getField "lng", c.getField "lat" with
          | some (.num lng), some (.num lat) => some (lng, lat)
          | _, _ => none
        | none => none
      zoom :=
        match state.getField "zoom" with
        | some (.num z) => some z
        | _ => none }

/-- `MapView.setEphemeralState`. -/
def setEphemeralState (state : JSVal) (vs : ViewState) : ViewState :=
  { vs with pendingMapState := parsePendingState state }

/-- `MapView.getEphemeralState`. -/
def getEphemeralState (vs : ViewState) : JSVal :=
  match vs.map with
  | none => .obj []
  | some m =>
    .obj [("center", .obj [("lng", .num m.centerLng), ("lat", .num m.centerLat)]),
          ("zoom", .num m.zoom)]

/-- The `markerManager.updateMarkers` call inside `onDataUpdated`. -/
def viewUpdateMarkers (env : Env) (vs : ViewState) : ViewState × List Eff :=
  let r := updateMarkers (vs.mapConfig.map MapConfig.markerProps) env.parseSvg env.data
    vs.map.isSome vs.mgr vs.markersMap
  ({ vs with mgr := r.1, markersMap := r.2.1 }, r.2.2)

/-- The pending-state application at the end of `onDataUpdated`: set the
stored center and zoom (when present) and clear the pending state. -/
def applyPendingState (vs : ViewState) : ViewState × List Eff :=
  match vs.pendingMapState, vs.map with
  | some p, some m =>
    let s1 : MapLibreMap × List Eff :=
      match p.center with
      | some c => ({ m with centerLng := c.1, centerLat := c.2 }, [.setCenter c.1 c.2])
      | none => (m, [])
    let s2 : MapLibreMap × List Eff :=
      match p.zoom with
      | some z => ({ s1.1 with zoom := z }, s1.2 ++ [.setZoom z])
      | none => (s1.1, s1.2)
    ({ vs with map := some s2.1, pendingMapState := none }, s2.2)
  | _, _ => (vs, [])

/-- `MapView.onDataUpdated`: snapshot diffing, config reload, map
initialization, conditional config application or center update, marker
update, pending ephemeral state application, and bookkeeping. -/
def onDataUpdated (env : Env) (vs0 : ViewState) : ViewState × List Eff :=
  let configSnapshot := getConfigSnapshot env.cfg
  let configChanged : Bool :=
    match vs0.lastConfigSnapshot with
    | some s => !(Snapshot.beq s configSnapshot)
    | none => true
  let currentTileSetId := jsOrNullStr (vs0.mapConfig.bind (·.currentTileSetId))
  let mc := loadConfig env.cfg env.centerFormula env.isEmbedded env.tileSets currentTileSetId
  let vs1 := { vs0 with mapConfig := some mc }
  let centerChanged : Bool := !(decide (mc.center.1 = vs0.lastEvaluatedCenter.1)) ||
    !(decide (mc.center.2 = vs0.lastEvaluatedCenter.2))
  let ri := initializeMap env vs1
  let r3 : ViewState × List Eff :=
    if configChanged then
      let r := applyConfigToMap env ri.1 vs0.lastConfigSnapshot configSnapshot
      ({ r.1 with lastConfigSnapshot := some configSnapshot, isFirstLoad := false }, r.2)
    else if ri.1.map.isSome && !ri.1.isFirstLoad && centerChanged &&
        ri.1.pendingMapState.isNone then
      updateCenter ri.1
    else (ri.1, [])
  let r4 : ViewState × List Eff :=
    if r3.1.map.isSome && env.data.isSome then
      let rm := viewUpdateMarkers env r3.1
      let rp := applyPendingState rm.1
      (rp.1, rm.2 ++ rp.2)
    else (r3.1, [])
  let vs5 :=
    match r4.1.mapConfig with
    | some mcf => { r4.1 with lastEvaluatedCenter := mcf.center }
    | none => r4.1
  (vs5, ri.2 ++ r3.2 ++ r4.2)

/-- C10: `getEphemeralState` returns the empty object without a map and
otherwise `{center:{lng,lat}, zoom}` with the camera's numbers; feeding a
captured state back into `setEphemeralState` round-trips center and zoom
into the pending state; a falsy state clears the pending state; and
non-numeric center/zoom fields are silently dropped (a pending object is
still produced, with the offending field absent). -/
theorem C10_ephemeral_state_roundtrip :
    (∀ vs : ViewState, vs.map = none → getEphemeralState vs = .obj []) ∧
    (∀ (vs : ViewState) (m : MapLibreMap), vs.map = some m →
      getEphemeralState vs =
        .obj [("center", .obj [("lng", .num m.centerLng), ("lat", .num m.centerLat)]),
              ("zoom", .num m.zoom)]) ∧
    (∀ (vs vs' : ViewState) (m : MapLibreMap), vs.map = some m →
      (setEphemeralState (getEphemeralState vs) vs').pendingMapState =
        some { center := some (m.centerLng, m.centerLat), zoom := some m.zoom }) ∧
    (∀ (vs : ViewState) (s : JSVal), s.truthy = false →
      (setEphemeralState s vs).pendingMapState = none) ∧
    (∀ (vs : ViewState) (fields : List (String × JSVal)),
      (setEphemeralState (.obj fields) vs).pendingMapState.isSome = true) ∧
    (∀ (vs : ViewState) (fields : List (String × JSVal)) (zv : JSVal),
      (JSVal.obj fields).getField "zoom" = some zv → isNumberVal zv = false →
      ((setEphemeralState (.obj fields) vs).pendingMapState.bind (·.zoom)) = none) ∧
    (∀ (vs : ViewState) (fields : List (String × JSVal)) (cv : JSVal),
      (JSVal.obj fields).getField "center" = some cv →
      (∀ lng lat : ℚ, ¬(cv.getField "lng" = some (.num lng) ∧
        cv.getField "lat" = some (.num lat))) →
      ((setEphemeralState (.obj fields) vs).pendingMapState.bind (·.center)) = none) := by
  refine ⟨?_, ?_, ?_, ?_, ?_, ?_, ?_⟩
  · intro vs h
    unfold getEphemeralState
    rw [h]
  · intro vs m h
    unfold getEphemeralState
    rw [h]
  · intro vs vs' m h
    unfold getEphemeralState
    rw [h]
    rfl
  · intro vs s h
    unfold setEphemeralState parsePendingState
    rw [h]
    rfl
  · intro vs fields
    unfold setEphemeralState parsePendingState
    rfl
  · intro vs fields zv hz hnum
    unfold setEphemeralState parsePendingState
    rw [show (JSVal.obj fields).truthy = true from rfl]
    simp only [Bool.not_true, Bool.false_eq_true, if_false, Option.bind_some]
    rw [hz]
    cases zv <;> simp_all [isNumberVal]
  · intro vs fields cv hc hnn
    unfold setEphemeralState parsePendingState
    rw [show (JSVal.obj fields).truthy = true from rfl]
    simp only [Bool.not_true, Bool.false_eq_true, if_false, Option.bind_some]
    rw [hc]
    show (match cv.getField "lng", cv.getField "lat" with
      | some (.num lng), some (.num lat) => some (lng, lat)
      | _, _ => (none : Option (ℚ × ℚ))) = none
    rcases hlng : cv.getField "lng" with _ | v1
    · rcases hlat : cv.getField "lat" with _ | v2
      · rfl
      · cases v2 <;> rfl
    · rcases hlat : cv.getField "lat" with _ | v2
      · cases v1 <;> rfl
      · cases v1 <;> cases v2 <;> first
          | rfl
          | exact absurd ⟨hlng, hlat⟩ (hnn _ _)

/-- An empty marker-manager+view state with no map. -/
def emptyViewState : ViewState :=
  { map := none, mapConfig := none, pendingMapState := none, isFirstLoad := true,
    lastConfigSnapshot := none, lastEvaluatedCenter := (0, 0), loadHandlerRestoring := none,
    mgr := emptyMgr, markersMap := freshMarkersMap }

/-- A map whose camera sits at `(lng 10, lat 20)`, zoom 5. -/
def exampleMap : MapLibreMap :=
  { centerLng := 10, centerLat := 20, zoom := 5, minZoom := 0, maxZoom := 18,
    style := .styleUrl "" }

/-- Witness for C10: capturing the `(10, 20, 5)` camera and restoring it
yields exactly that pending state, and a `null` state clears it. -/
theorem C10_ephemeral_state_roundtrip_witness :
    (setEphemeralState (getEphemeralState { emptyViewState with map := some exampleMap })
      emptyViewState).pendingMapState = some { center := some (10, 20), zoom := some 5 } ∧
    (setEphemeralState .nullv
      { emptyViewState with map := some exampleMap }).pendingMapState = none := by
  constructor
  · exact C10_ephemeral_state_roundtrip.2.2.1 { emptyViewState with map := some exampleMap }
      emptyViewState exampleMap rfl
  · exact C10_ephemeral_state_roundtrip.2.2.2.1 { emptyViewState with map := some exampleMap }
      .nullv rfl

theorem JSVal.eq_of_beq_primitive {a b : JSVal} (ha : a.isPrimitive = true)
    (hbeq : JSVal.beq a b = true) : a = b := by
  cases a <;> cases b <;> simp_all [JSVal.beq, JSVal.isPrimitive]

theorem jsStrictNeq_of_ne {a b : JSVal} (h : a ≠ b) : jsStrictNeq a b = true := by
  unfold jsStrictNeq
  split
  · rename_i hp
    cases hbe : JSVal.beq a b
    · simp
    · obtain ⟨ha, hb⟩ := Bool.and_eq_true_iff.mp hp
      exact absurd (JSVal.eq_of_beq_primitive ha hbe) h
  · rfl

/-- C4 (amended): for successive snapshots that differ only in
`mapHeight`, `applyConfigToMap` never rebuilds the style and never clears
the marker-image cache, and reapplies the height with a map resize;
provided additionally that the `center` and `defaultZoom` snapshot fields
are JSON primitives, that the map's zoom constraints already match the
configuration and the camera zoom lies within them, the view state is
completely unchanged and the only engine calls are the (value-identical)
min/max-zoom reassertions, the height update, and the resize. -/
theorem C4_height_only_change (env : Env) (vs : ViewState) (m : MapLibreMap) (mc : MapConfig)
    (oldS newS : Snapshot)
    (hm : vs.map = some m) (hmc : vs.mapConfig = some mc)
    (hfl : vs.isFirstLoad = false) (hpend : vs.pendingMapState = none)
    (hcenter : oldS.center = newS.center) (hcprim : newS.center.isPrimitive = true)
    (hzoom : oldS.defaultZoom = newS.defaultZoom) (hzprim : newS.defaultZoom.isPrimitive = true)
    (htiles : oldS.mapTiles = newS.mapTiles) (htilesd : oldS.mapTilesDark = newS.mapTilesDark)
    (hheight : oldS.mapHeight ≠ newS.mapHeight)
    (hminz : m.minZoom = mc.minZoom) (hmaxz : m.maxZoom = mc.maxZoom)
    (hz1 : ¬ m.zoom < mc.minZoom) (hz2 : ¬ m.zoom > mc.maxZoom) :
    applyConfigToMap env vs (some oldS) newS =
      (vs, [.setMinZoom mc.minZoom, .setMaxZoom mc.maxZoom] ++
        (if env.isEmbedded then [Eff.setHeightPx mc.mapHeight] else [Eff.clearHeight]) ++
        [Eff.resize]) := by
  have hm1 : ({ m with minZoom := mc.minZoom, maxZoom := mc.maxZoom } : MapLibreMap) = m := by
    cases m
    simp_all
  have hvs : ViewState.mk (some m) (some mc) none false vs.lastConfigSnapshot vs.lastEvaluatedCenter vs.loadHandlerRestoring vs.mgr vs.markersMap = vs := by
    cases vs
    simp_all
  unfold applyConfigToMap
  rw [hm, hmc]
  simp only [oldSnapField, hcenter, hzoom, htiles, htilesd,
    jsStrictNeq_self_primitive hcprim, jsStrictNeq_self_primitive hzprim,
    jsStrictNeq_of_ne hheight, JSVal.beq_refl, Bool.not_true, Bool.or_self,
    Bool.false_eq_true, if_false, hfl, hpend, Option.isSome_none, Bool.not_false,
    Bool.true_and, Bool.false_or, Bool.and_false, Bool.false_and, if_true, hm1,
    hz1, hz2, Bool.or_true, Bool.and_true]
  rw [hvs]
  simp

/-- A raw configuration whose `defaultZoom` is the array `[5]` (serialized
identically across snapshots but reference-unequal after `JSON.parse`). -/
def cfgC4 : String → JSVal := fun k => if k = "defaultZoom" then .arr [.num 5] else (.undef : JSVal)

/-- The environment of the C4 counterexample. -/
def envC4 : Env :=
  { cfg := cfgC4, centerFormula := none, isEmbedded := false, tileSets := [], data := none,
    isDark := false, fetch := fun _ => .fail, transform := fun j _ => j,
    parseSvg := fun s => .parseFail s, boundsCenter := fun _ => (0, 0),
    fitBoundsCam := fun _ => ((0, 0), 0) }

/-- A camera the user has zoomed to level 3. -/
def mapC4 : MapLibreMap :=
  { centerLng := 0, centerLat := 0, zoom := 3, minZoom := 0, maxZoom := 18,
    style := .styleUrl "" }

/-- The loaded configuration of the C4 counterexample. -/
def mcC4 : MapConfig := loadConfig cfgC4 none false [] none

/-- The view state of the C4 counterexample. -/
def vsC4 : ViewState :=
  { emptyViewState with map := some mapC4, mapConfig := some mcC4, isFirstLoad := false }

/-- The previous snapshot (embedded height 300). -/
def oldC4 : Snapshot := { getConfigSnapshot cfgC4 with mapHeight := .num 300 }

/-- The new snapshot (embedded height 400; all other fields serialized
identically to `oldC4`). -/
def newC4 : Snapshot := { getConfigSnapshot cfgC4 with mapHeight := .num 400 }

/-- C4 counterexample: the snapshots differ only in `mapHeight`, yet
`applyConfigToMap` moves the camera zoom from 3 to 4 (and emits a
`setZoom`), because the array-valued `defaultZoom` field compares
reference-unequal (`!==`) after re-parsing, which marks the zoom as
changed and reapplies the configured zoom. -/
theorem C4_height_only_counterexample :
    oldC4.center = newC4.center ∧ oldC4.defaultZoom = newC4.defaultZoom ∧
    oldC4.minZoom = newC4.minZoom ∧ oldC4.maxZoom = newC4.maxZoom ∧
    oldC4.mapTiles = newC4.mapTiles ∧ oldC4.mapTilesDark = newC4.mapTilesDark ∧
    oldC4.mapHeight ≠ newC4.mapHeight ∧
    ((applyConfigToMap envC4 vsC4 (some oldC4) newC4).1.map.map (·.zoom)) = some 4 ∧
    mapC4.zoom = 3 ∧
    Eff.setZoom 4 ∈ (applyConfigToMap envC4 vsC4 (some oldC4) newC4).2 := by
  refine ⟨rfl, rfl, rfl, rfl, rfl, rfl, by simp [oldC4, newC4], ?_, rfl, ?_⟩
  · decide
  · decide

/-- An all-default raw configuration (every field absent). -/
def cfgW4 : String → JSVal := fun _ => (.undef : JSVal)

/-- Its loaded configuration: minZoom 0, maxZoom 18, defaultZoom 4. -/
def mcW4 : MapConfig := loadConfig cfgW4 none false [] none

/-- A camera currently at zoom 5 with matching constraints. -/
def mapW4 : MapLibreMap :=
  { centerLng := 0, centerLat := 0, zoom := 5, minZoom := 0, maxZoom := 18,
    style := .styleUrl "" }

/-- The view state of the C4 witness. -/
def vsW4 : ViewState :=
  { emptyViewState with map := some mapW4, mapConfig := some mcW4, isFirstLoad := false }

/-- Previous snapshot, height 300. -/
def oldW4 : Snapshot := { getConfigSnapshot cfgW4 with mapHeight := .num 300 }

/-- New snapshot, height 400, all other fields identical primitives. -/
def newW4 : Snapshot := { getConfigSnapshot cfgW4 with mapHeight := .num 400 }

theorem C4_height_only_change_witness :
    applyConfigToMap envC4 vsW4 (some oldW4) newW4 =
      (vsW4, [.setMinZoom mcW4.minZoom, .setMaxZoom mcW4.maxZoom] ++
        (if envC4.isEmbedded then [Eff.setHeightPx mcW4.mapHeight] else [Eff.clearHeight]) ++
        [Eff.resize]) :=
  C4_height_only_change envC4 vsW4 mapW4 mcW4 oldW4 newW4 rfl rfl rfl rfl rfl rfl rfl
    rfl rfl rfl (by simp [oldW4, newW4]) rfl rfl (by decide) (by decide)

/-- Engine calls that move or (re)create the camera. -/
def Eff.isCameraEff : Eff → Bool
  | .setCenter _ _ => true
  | .setCenterBounds => true
  | .setZoom _ => true
  | .fitBounds => true
  | .createMap _ _ _ => true
  | _ => false

theorem updateMarkers_no_camera (mp? : Option MarkerProps) (parseSvg : String → ParsedSvg)
    (data : Option (List (Option BasesEntry))) (hasMap : Bool)
    (mgr : MarkerMgrState) (mapSt : MarkersMapState) :
    ∀ e ∈ (updateMarkers mp? parseSvg data hasMap mgr mapSt).2.2, e.isCameraEff = false := by
  intro e he
  rcases data with _ | entries
  · simp [updateMarkers] at he
  rcases mp? with _ | mp
  · simp [updateMarkers] at he
  simp only [updateMarkers] at he
  split at he
  · simp at he
  split at he
  · simp only [List.mem_append] at he
    rcases he with he | he
    · rcases registerImages_effs parseSvg _ _ _ e he with ⟨k, rfl⟩ | ⟨k, rfl⟩ <;> rfl
    · simp only [List.mem_cons, List.not_mem_nil, or_false] at he
      subst he
      rfl
  · simp only [List.mem_append] at he
    rcases he with he | he
    · rcases registerImages_effs parseSvg _ _ _ e he with ⟨k, rfl⟩ | ⟨k, rfl⟩ <;> rfl
    · simp only [List.mem_cons, List.not_mem_nil, or_false] at he
      rcases he with rfl | rfl | rfl <;> rfl

theorem loadConfig_center (cfg : String → JSVal) (formula : Option Value) (emb : Bool)
    (ts : List TileSet) (cur : Option String) :
    (loadConfig cfg formula emb ts cur).center = getCenterFromConfig cfg formula := rfl

theorem fst_ite {A : Type} {B : Type} (c : Prop) [Decidable c] (a b : A × B) :
    (ite c a b).1 = ite c a.1 b.1 := apply_ite Prod.fst c a b

theorem snd_ite {A : Type} {B : Type} (c : Prop) [Decidable c] (a b : A × B) :
    (ite c a b).2 = ite c a.2 b.2 := apply_ite Prod.snd c a b

theorem style_ite (c : Prop) [Decidable c] (a b : MapLibreMap) :
    (ite c a b).style = ite c a.style b.style := apply_ite MapLibreMap.style c a b

theorem mem_ite_list {α : Type} (c : Prop) [Decidable c] (x : α) (l1 l2 : List α) :
    (x ∈ ite c l1 l2) ↔ ite c (x ∈ l1) (x ∈ l2) := by
  split <;> rfl

theorem prop_ite_iff (c : Prop) [Decidable c] (P Q : Prop) :
    (ite c P Q) ↔ (c ∧ P) ∨ (¬c ∧ Q) := by
  split <;> rename_i h <;> simp [h]

theorem eq_ite_or {α : Type} (a : α) (c : Prop) [Decidable c] (x y : α) :
    (a = ite c x y) ↔ (c ∧ a = x) ∨ (¬c ∧ a = y) := by
  split <;> rename_i h <;> simp [h]

theorem decide_self_true {α : Type} [DecidableEq α] (a : α) : decide (a = a) = true :=
  decide_eq_true rfl

/-- C3: with a pending ephemeral camera state `[lcub]center:[lcub]lng,lat[rcub], zoom[rcub]` set via
`setEphemeralState` on a view whose map is not yet created, the next
dataset update creates the map and places the camera at exactly that
center and zoom; no `setCenterBounds` / `fitBounds` placement is ever
emitted (the map `load` handler is fully suppressed); the pending state
is cleared by that single placement; and a subsequent dataset update
leaves the camera untouched, emitting no camera-moving effect at all. -/
theorem C3_ephemeral_restore (env : Env) (vs0 : ViewState) (s : JSVal) (lng lat z : ℚ)
    (hmap : vs0.map = none) (hsnap : vs0.lastConfigSnapshot = none)
    (hfirst : vs0.isFirstLoad = true) (hdata : env.data.isSome = true)
    (hparse : parsePendingState s = some { center := some (lng, lat), zoom := some z }) :
    ((onDataUpdated env (setEphemeralState s vs0)).1.map.map
        (fun m => (m.centerLng, m.centerLat, m.zoom))) = some (lng, lat, z) ∧
    (onDataUpdated env (setEphemeralState s vs0)).1.pendingMapState = none ∧
    (∀ e ∈ (onDataUpdated env (setEphemeralState s vs0)).2,
      e ≠ Eff.setCenterBounds ∧ e ≠ Eff.fitBounds) ∧
    onMapLoad env (onDataUpdated env (setEphemeralState s vs0)).1 =
      ((onDataUpdated env (setEphemeralState s vs0)).1, []) ∧
    (onDataUpdated env (onDataUpdated env (setEphemeralState s vs0)).1).1.map =
      (onDataUpdated env (setEphemeralState s vs0)).1.map ∧
    (∀ e ∈ (onDataUpdated env (onDataUpdated env (setEphemeralState s vs0)).1).2,
      e.isCameraEff = false) := by
  have hvs1 : setEphemeralState s vs0 = { vs0 with pendingMapState := some { center := some (lng, lat), zoom := some z } } := by
    unfold setEphemeralState
    rw [hparse]
  rw [hvs1]
  simp only [onDataUpdated, initializeMap, applyConfigToMap, updateZoom, updateCenter,
    viewUpdateMarkers, applyPendingState, onMapLoad, hmap, hsnap, hfirst, hdata,
    loadConfig_center, fst_ite, snd_ite, style_ite, ite_self, decide_self_true, Snapshot.beq_self,
    MapStyleResult.beq_id, Option.isSome_some, Option.isSome_none, Option.isNone_none,
    Option.isNone_some, Option.some_bind, Option.map_some, Bool.not_true, Bool.not_false,
    Bool.true_or, Bool.false_or, Bool.or_true, Bool.or_false, Bool.true_and, Bool.false_and,
    Bool.and_true, Bool.and_false, if_true, if_false, List.append_nil, List.nil_append,
    Bool.false_eq_true, Bool.true_eq_false, ite_true, ite_false, Option.map_some, true_and,
    and_true, decide_True, decide_False]
  refine ⟨rfl, ?_, ?_⟩
  · intro e he
    constructor
    · rintro rfl
      simp [mem_ite_list, prop_ite_iff, eq_ite_or] at he
      exact absurd (updateMarkers_no_camera _ _ _ _ _ _ _ he) (by decide)
    · rintro rfl
      simp [mem_ite_list, prop_ite_iff, eq_ite_or] at he
      exact absurd (updateMarkers_no_camera _ _ _ _ _ _ _ he) (by decide)
  · intro e he
    exact updateMarkers_no_camera _ _ _ _ _ _ e he

/-- The environment of the C3 witness: empty configuration, an empty
dataset, light theme. -/
def envW3 : Env :=
  { cfg := fun _ => .undef, centerFormula := none, isEmbedded := false, tileSets := [],
    data := some [], isDark := false, fetch := fun _ => .fail, transform := fun j _ => j,
    parseSvg := fun s => .parseFail s, boundsCenter := fun _ => (0, 0),
    fitBoundsCam := fun _ => ((0, 0), 0) }

/-- A freshly opened view: no map, no configuration, first load. -/
def vsW3 : ViewState :=
  { map := none, mapConfig := none, pendingMapState := none, isFirstLoad := true,
    lastConfigSnapshot := none, lastEvaluatedCenter := (0, 0), loadHandlerRestoring := none,
    mgr := { markers := [], bounds := none, loadedMarkerImages := [] },
    markersMap := { hasMarkersSource := false, markersData := none, layers := [], interactionsSetupCount := 0, imageRegistry := [] } }

/-- A captured camera state `[lcub]center:[lcub]lng:10,lat:20[rcub], zoom:5[rcub]`. -/
def sW3 : JSVal :=
  .obj [("center", .obj [("lng", .num 10), ("lat", .num 20)]), ("zoom", .num 5)]

theorem C3_ephemeral_restore_witness :
    ((onDataUpdated envW3 (setEphemeralState sW3 vsW3)).1.map.map
        (fun m => (m.centerLng, m.centerLat, m.zoom))) = some (10, 20, 5) ∧
    (onDataUpdated envW3 (setEphemeralState sW3 vsW3)).1.pendingMapState = none ∧
    (∀ e ∈ (onDataUpdated envW3 (setEphemeralState sW3 vsW3)).2,
      e ≠ Eff.setCenterBounds ∧ e ≠ Eff.fitBounds) ∧
    onMapLoad envW3 (onDataUpdated envW3 (setEphemeralState sW3 vsW3)).1 =
      ((onDataUpdated envW3 (setEphemeralState sW3 vsW3)).1, []) ∧
    (onDataUpdated envW3 (onDataUpdated envW3 (setEphemeralState sW3 vsW3)).1).1.map =
      (onDataUpdated envW3 (setEphemeralState sW3 vsW3)).1.map ∧
    (∀ e ∈ (onDataUpdated envW3 (onDataUpdated envW3 (setEphemeralState sW3 vsW3)).1).2,
      e.isCameraEff = false) :=
  C3_ephemeral_restore envW3 vsW3 sW3 10 20 5 rfl rfl rfl rfl (by decide)
